import Mathlib

/-!
# Formal model of the scrapper-homecare harvest-and-extract pipeline

Shallow embedding, in Lean 4, of the parts of the Python source relevant to
the specification claims:

* `src/scraper/pdf_parser.py`   — text parser (`PDFParser`): amount parsing,
  section/summary line scanning, party extraction;
* `src/scraper/extractor.py`    — record builder (`PDFExtractor`): date/RUT
  normalization, consistency equations, person building;
* `src/scraper/pdf_validator.py`— validator (`PDFValidator`): schema, content
  and numeric-consistency checks, verdict assembly;
* `src/scraper/cruzblanca.py`   — discovery/download state machine
  (`CruzBlancaScraper`): summary-grid enumeration, per-row download loop,
  cross-validation retry pass, final harvest report.

Python strings are modelled as `String`/`List Char`; Python ints as `Int`
(or `Nat` where the source can only produce non-negatives); floats as `ℚ`;
`None`-able values as `Option`; raised exceptions as `Except`/sum results.
External effects (the browser surface, the filesystem, the `re` engine where
noted) are passed in as explicit oracle values, so every function here is
executable and total.
-/

namespace PyStr

/-- One step of decimal accumulation: `acc * 10 + digit c`. -/
def digitStep (acc : Nat) (c : Char) : Nat := 10 * acc + (c.toNat - 48)

/-- Value of a decimal digit string (leading zeros allowed), as computed by
Python `int` on a plain digit string. -/
def digitsVal (l : List Char) : Nat := l.foldl digitStep 0

/-- The decimal digit character for `n < 10`. -/
def digitChar : Nat → Char
  | 0 => '0' | 1 => '1' | 2 => '2' | 3 => '3' | 4 => '4'
  | 5 => '5' | 6 => '6' | 7 => '7' | 8 => '8' | _ => '9'

/-- Fuelled decimal rendering; `fuel > n` always suffices. -/
def natDigitsF : Nat → Nat → List Char
  | 0, _ => []
  | fuel + 1, n =>
    if n < 10 then [digitChar n]
    else natDigitsF fuel (n / 10) ++ [digitChar (n % 10)]

/-- Decimal digit list of a natural number, most significant digit first
(the digits of Python `str(n)` for a non-negative `n`). -/
def natDigits (n : Nat) : List Char := natDigitsF (n + 1) n

/-- Python `str.strip()` (both-ends whitespace strip) on a char list. -/
def pyStrip (l : List Char) : List Char :=
  ((l.dropWhile Char.isWhitespace).reverse.dropWhile Char.isWhitespace).reverse

/-- Python `str.strip()` on a `String`. -/
def pyStripS (s : String) : String := ⟨pyStrip s.toList⟩

/-- Remove every occurrence of one character: Python `s.replace(c, "")`. -/
def removeAll (c : Char) (l : List Char) : List Char := l.filter (fun x => x ≠ c)

/-- Digit run with single underscores allowed between digits, after the first
character (the tail of the digit grammar accepted by Python `int`). -/
def pyDigitsOk : List Char → Bool
  | [] => true
  | c :: rest =>
    if c = '_' then
      match rest with
      | [] => false
      | c2 :: rest2 => c2.isDigit && pyDigitsOk rest2
    else c.isDigit && pyDigitsOk rest

/-- Python `int(s)` on an unsigned body: non-empty, no leading underscore,
every underscore between two digits; value ignores the underscores. -/
def pyNatOfDigits (l : List Char) : Option Nat :=
  match l with
  | [] => none
  | c :: rest =>
    if c ≠ '_' ∧ pyDigitsOk (c :: rest) = true then
      some (digitsVal ((c :: rest).filter (fun x => x ≠ '_')))
    else none

/-- Python `int(s)` on an already-stripped string: optional sign then the
unsigned digit body; `none` models the `ValueError` branch. -/
def pyIntCore (l : List Char) : Option Int :=
  match l with
  | [] => none
  | c :: rest =>
    if c = '+' then (pyNatOfDigits rest).map Int.ofNat
    else if c = '-' then (pyNatOfDigits rest).map (fun n => -(Int.ofNat n))
    else (pyNatOfDigits (c :: rest)).map Int.ofNat

/-- Python truthiness of an optional string (`None` and `""` are falsy). -/
def optStrTruthy : Option String → Bool
  | none => false
  | some s => !s.isEmpty

theorem natDigitsF_congr : ∀ f1 f2 n, n < f1 → n < f2 → natDigitsF f1 n = natDigitsF f2 n := by
  intro f1
  induction f1 with
  | zero => omega
  | succ f ih =>
    intro f2 n h1 h2
    cases f2 with
    | zero => omega
    | succ g =>
      show natDigitsF (f + 1) n = natDigitsF (g + 1) n
      simp only [natDigitsF]
      by_cases h10 : n < 10
      · simp [h10]
      · rw [if_neg h10, if_neg h10]
        have hd : n / 10 < n := Nat.div_lt_self (by omega) (by omega)
        rw [ih g (n / 10) (by omega) (by omega)]

theorem natDigits_eq (n : Nat) :
    natDigits n = if n < 10 then [digitChar n] else natDigits (n / 10) ++ [digitChar (n % 10)] := by
  show natDigitsF (n + 1) n = _
  simp only [natDigitsF]
  by_cases h10 : n < 10
  · simp [h10]
  · rw [if_neg h10, if_neg h10]
    have hd : n / 10 < n := Nat.div_lt_self (by omega) (by omega)
    rw [natDigitsF_congr n (n / 10 + 1) (n / 10) (by omega) (by omega)]
    rfl

theorem digitsVal_leading_zeros (j : Nat) (l : List Char) :
    digitsVal (List.replicate j '0' ++ l) = digitsVal l := by
  induction j with
  | zero => simp
  | succ k ih =>
    simpa [digitsVal, List.foldl_append, digitStep, List.replicate_succ] using ih

theorem digitChar_isDigit (n : Nat) (h : n < 10) : (digitChar n).isDigit = true := by
  interval_cases n <;> decide

theorem digitChar_toNat (n : Nat) (h : n < 10) : (digitChar n).toNat = 48 + n := by
  interval_cases n <;> decide

theorem natDigits_ne_nil (n : Nat) : natDigits n ≠ [] := by
  rw [natDigits_eq]
  split <;> simp

theorem natDigits_all_digit (n : Nat) : ∀ c ∈ natDigits n, c.isDigit = true := by
  induction n using Nat.strong_induction_on with
  | _ n ih =>
    rw [natDigits_eq]
    split
    · next h => simpa using digitChar_isDigit n h
    · next h =>
      intro c hc
      rcases List.mem_append.mp hc with h1 | h1
      · exact ih (n / 10) (Nat.div_lt_self (by omega) (by omega)) c h1
      · simp only [List.mem_singleton] at h1
        subst h1
        exact digitChar_isDigit _ (Nat.mod_lt _ (by omega))

theorem digitsVal_natDigits (n : Nat) : digitsVal (natDigits n) = n := by
  induction n using Nat.strong_induction_on with
  | _ n ih =>
    rw [natDigits_eq]
    split
    · next h =>
      simp [digitsVal, digitStep, digitChar_toNat n h]
    · next h =>
      rw [digitsVal, List.foldl_append]
      have hrec := ih (n / 10) (Nat.div_lt_self (by omega) (by omega))
      rw [digitsVal] at hrec
      rw [hrec]
      simp only [List.foldl_cons, List.foldl_nil, digitStep,
        digitChar_toNat (n % 10) (Nat.mod_lt _ (by omega))]
      omega

theorem natDigits_length_le (k : Nat) : ∀ n, n < 10 ^ k → 1 ≤ k → (natDigits n).length ≤ k := by
  induction k with
  | zero => omega
  | succ k ih =>
    intro n hn _
    rw [natDigits_eq]
    split
    · simp
    · next h =>
      have hk : 1 ≤ k := by
        by_contra hk0
        have : k = 0 := by omega
        subst this
        simp at hn
        omega
      have hdiv : n / 10 < 10 ^ k := by
        have hpow : 10 ^ (k + 1) = 10 ^ k * 10 := by ring
        rw [hpow] at hn
        exact Nat.div_lt_of_lt_mul (by omega)
      have := ih (n / 10) hdiv hk
      simp only [List.length_append, List.length_cons, List.length_nil]
      omega

theorem isDigit_char_facts (c : Char) (h : c.isDigit = true) :
    c ≠ ',' ∧ c ≠ '$' ∧ c ≠ '.' ∧ c ≠ '_' ∧ c ≠ '+' ∧ c ≠ '-' ∧ c ≠ '/' ∧
      c.isWhitespace = false := by
  refine ⟨?_, ?_, ?_, ?_, ?_, ?_, ?_, ?_⟩
  · rintro rfl; exact absurd h (by decide)
  · rintro rfl; exact absurd h (by decide)
  · rintro rfl; exact absurd h (by decide)
  · rintro rfl; exact absurd h (by decide)
  · rintro rfl; exact absurd h (by decide)
  · rintro rfl; exact absurd h (by decide)
  · rintro rfl; exact absurd h (by decide)
  · cases hw : c.isWhitespace
    · rfl
    · exfalso
      have hcs : ((c = ' ' ∨ c = '\t') ∨ c = '\x0d') ∨ c = '\n' := by
        simpa [Char.isWhitespace] using hw
      rcases hcs with ((rfl | rfl) | rfl) | rfl <;> exact absurd h (by decide)

theorem removeAll_eq_self (c : Char) (l : List Char) (h : c ∉ l) : removeAll c l = l := by
  apply List.filter_eq_self.mpr
  intro a ha
  simp only [ne_eq, decide_eq_true_eq]
  intro hac
  subst hac
  exact h ha

theorem removeAll_append (c : Char) (a b : List Char) :
    removeAll c (a ++ b) = removeAll c a ++ removeAll c b := by
  simp [removeAll, List.filter_append]

theorem removeAll_cons_self (c : Char) (l : List Char) :
    removeAll c (c :: l) = removeAll c l := by
  simp [removeAll, List.filter_cons]

theorem pyStrip_of_all_digits (l : List Char) (h : ∀ c ∈ l, c.isDigit = true) :
    pyStrip l = l := by
  have hnw : ∀ c ∈ l, c.isWhitespace = false := fun c hc =>
    (isDigit_char_facts c (h c hc)).2.2.2.2.2.2.2
  unfold pyStrip
  have h1 : l.dropWhile Char.isWhitespace = l := by
    cases l with
    | nil => simp
    | cons c rest =>
      rw [List.dropWhile_cons_of_neg]
      simp [hnw c (by simp)]
  rw [h1]
  have h2 : l.reverse.dropWhile Char.isWhitespace = l.reverse := by
    cases hrev : l.reverse with
    | nil => simp
    | cons c rest =>
      rw [List.dropWhile_cons_of_neg]
      have hmem : c ∈ l := by
        have : c ∈ l.reverse := by rw [hrev]; simp
        simpa using this
      simp [hnw c hmem]
  rw [h2, List.reverse_reverse]

theorem pyDigitsOk_of_all_digits (l : List Char) (h : ∀ c ∈ l, c.isDigit = true) :
    pyDigitsOk l = true := by
  induction l with
  | nil => rfl
  | cons c rest ih =>
    have hc := h c (by simp)
    have hne : ¬(c = '_') := (isDigit_char_facts c hc).2.2.2.1
    rw [pyDigitsOk.eq_def]
    simp only []
    rw [if_neg hne]
    simp [hc, ih (fun x hx => h x (by simp [hx]))]

theorem filter_underscore_of_all_digits (l : List Char) (h : ∀ c ∈ l, c.isDigit = true) :
    l.filter (fun x => x ≠ '_') = l := by
  apply List.filter_eq_self.mpr
  intro c hc
  simpa using (isDigit_char_facts c (h c hc)).2.2.2.1

end PyStr

namespace PdfParser

open PyStr

/-- Body of `_parse_amount` after the replace/strip chain: the empty /
`"0"` / dash placeholders map to 0, otherwise Python `int` (with the caught
`ValueError` branch also mapping to 0). -/
def amountBody (s : List Char) : Int :=
  if s = [] ∨ s = ['0'] ∨ s = "---".toList ∨ s = "-------".toList then 0
  else
    match pyIntCore s with
    | some k => k
    | none => 0

/-- `PDFParser._parse_amount` on a char list: drop `$`, `,`, `.`, strip,
then `amountBody`. -/
def parseAmountL (l : List Char) : Int :=
  amountBody (pyStrip (removeAll '.' (removeAll ',' (removeAll '$' l))))

/-- `PDFParser._parse_amount(value)`: `None` maps to `0`, otherwise the
string body is parsed by `parseAmountL`.  Total by construction — the only
exception the Python body can raise (`ValueError` from `int`) is caught. -/
def parse_amount (value : Option String) : Int :=
  match value with
  | none => 0
  | some s => parseAmountL s.toList

/-- Spec-side rendering: group a digit list with thousands commas from the
right (`125880 ↦ 125,880`). -/
def group3 (l : List Char) : List Char :=
  if h : l.length ≤ 3 then l
  else group3 (l.take (l.length - 3)) ++ ',' :: l.drop (l.length - 3)
termination_by l.length
decreasing_by simp [List.length_take]; omega

/-- Spec-side rendering of the standard currency format for a non-negative
integer: dollar sign plus comma-grouped digits (`"$125,880"`). -/
def renderCurrency (n : Nat) : String := ⟨'$' :: group3 (natDigits n)⟩

theorem group3_removeAll_comma_aux :
    ∀ n (l : List Char), l.length ≤ n → ',' ∉ l → removeAll ',' (group3 l) = l := by
  intro n
  induction n with
  | zero =>
    intro l hl hno
    have hnil : l = [] := by
      cases l with
      | nil => rfl
      | cons a r => simp at hl
    subst hnil
    rw [group3]
    simp [removeAll]
  | succ n ih =>
    intro l hl hno
    rw [group3]
    split
    · exact removeAll_eq_self ',' l hno
    · next hlen =>
      push_neg at hlen
      have htk : ',' ∉ l.take (l.length - 3) := fun hc => hno (List.mem_of_mem_take hc)
      have hdp : ',' ∉ l.drop (l.length - 3) := fun hc => hno (List.mem_of_mem_drop hc)
      rw [removeAll_append, removeAll_cons_self]
      rw [ih (l.take (l.length - 3)) (by simp only [List.length_take]; omega) htk]
      rw [removeAll_eq_self ',' _ hdp, List.take_append_drop]

theorem group3_removeAll_comma (l : List Char) (h : ',' ∉ l) :
    removeAll ',' (group3 l) = l :=
  group3_removeAll_comma_aux l.length l le_rfl h

theorem group3_mem (l : List Char) (c : Char) (hc : c ∈ group3 l) : c ∈ l ∨ c = ',' := by
  by_cases hcc : c = ','
  · exact Or.inr hcc
  · left
    by_cases hcomma : ',' ∈ l
    · -- degenerate: the source digit list never contains a comma, but cover it
      -- by direct induction on the grouping recursion
      have key : ∀ n (l : List Char), l.length ≤ n → ∀ c, c ∈ group3 l → c ≠ ',' → c ∈ l := by
        intro n
        induction n with
        | zero =>
          intro l hl c hcg _
          have hnil : l = [] := by
            cases l with
            | nil => rfl
            | cons a r => simp at hl
          subst hnil
          rw [group3] at hcg
          simpa using hcg
        | succ n ih =>
          intro l hl c hcg hne
          rw [group3] at hcg
          split at hcg
          · exact hcg
          · next hlen =>
            push_neg at hlen
            rcases List.mem_append.mp hcg with h1 | h1
            · exact List.mem_of_mem_take
                (ih (l.take (l.length - 3)) (by simp only [List.length_take]; omega) c h1 hne)
            · rcases List.mem_cons.mp h1 with h2 | h2
              · exact absurd h2 hne
              · exact List.mem_of_mem_drop h2
      exact key l.length l le_rfl c hc hcc
    · have : c ∈ removeAll ',' (group3 l) := by
        unfold removeAll
        simp [List.mem_filter, hc, hcc]
      rw [group3_removeAll_comma l hcomma] at this
      exact this

theorem amountBody_digits (n : Nat) : amountBody (natDigits n) = (n : Int) := by
  have hdig := natDigits_all_digit n
  by_cases h0 : n = 0
  · subst h0
    have h1 : natDigits 0 = ['0'] := by rw [natDigits_eq]; rfl
    rw [h1]
    rfl
  · have hne0 : natDigits n ≠ ['0'] := by
      intro hEq
      have := digitsVal_natDigits n
      rw [hEq] at this
      simp [digitsVal, digitStep] at this
      omega
    have hnodash : ∀ m : List Char, natDigits n = m → '-' ∈ m → False := by
      intro m hm hmem
      rw [← hm] at hmem
      exact absurd (hdig '-' hmem) (by decide)
    unfold amountBody
    rw [if_neg]
    · cases hsd : natDigits n with
      | nil => exact absurd hsd (natDigits_ne_nil n)
      | cons c rest =>
        have hc : c.isDigit = true := hdig c (by rw [hsd]; simp)
        have hfacts := isDigit_char_facts c hc
        rw [pyIntCore.eq_def]
        simp only []
        rw [if_neg hfacts.2.2.2.2.1, if_neg hfacts.2.2.2.2.2.1]
        rw [pyNatOfDigits.eq_def]
        simp only []
        rw [if_pos]
        · show Int.ofNat (digitsVal (List.filter (fun x => decide (x ≠ '_')) (c :: rest))) = _
          rw [← hsd, filter_underscore_of_all_digits _ hdig, digitsVal_natDigits]
          rfl
        · refine ⟨hfacts.2.2.2.1, ?_⟩
          rw [← hsd]
          exact pyDigitsOk_of_all_digits _ hdig
    · push_neg
      refine ⟨natDigits_ne_nil n, hne0, ?_, ?_⟩ <;>
        · intro hEq
          exact hnodash _ hEq (by decide)

theorem parse_amount_renderCurrency (n : Nat) :
    parse_amount (some (renderCurrency n)) = (n : Int) := by
  have hdig := natDigits_all_digit n
  have hnM : ',' ∉ natDigits n := fun hmem => absurd (hdig ',' hmem) (by decide)
  have hgrp : ∀ c ∈ group3 (natDigits n), c.isDigit = true ∨ c = ',' := by
    intro c hc
    rcases group3_mem (natDigits n) c hc with h1 | h1
    · exact Or.inl (hdig c h1)
    · exact Or.inr h1
  show parseAmountL ((⟨'$' :: group3 (natDigits n)⟩ : String).toList) = (n : Int)
  have htl : (⟨'$' :: group3 (natDigits n)⟩ : String).toList = '$' :: group3 (natDigits n) := rfl
  rw [htl]
  unfold parseAmountL
  rw [removeAll_cons_self]
  rw [removeAll_eq_self '$' _ (fun hmem => by
    rcases hgrp '$' hmem with h1 | h1
    · exact absurd h1 (by decide)
    · exact absurd h1 (by decide))]
  rw [group3_removeAll_comma _ hnM]
  rw [removeAll_eq_self '.' _ (fun hmem => absurd (hdig '.' hmem) (by decide))]
  rw [pyStrip_of_all_digits _ hdig]
  exact amountBody_digits n

/-- C8: `_parse_amount` is total (a Lean function returning a value on every
input; Python's caught `ValueError` branch maps to 0), it round-trips the
standard currency rendering (`"$"` plus comma-grouped digits) of every
non-negative integer, and the placeholder values `"---"`, `"-------"` and
the empty string all map to 0, as does a `None` input. -/
theorem parse_amount_total_round_trip :
    (∀ n : Nat, parse_amount (some (renderCurrency n)) = (n : Int)) ∧
      parse_amount (some "---") = 0 ∧
      parse_amount (some "-------") = 0 ∧
      parse_amount (some "") = 0 ∧
      parse_amount none = 0 := by
  refine ⟨parse_amount_renderCurrency, ?_, ?_, rfl, rfl⟩ <;> rfl

end PdfParser

namespace PyStr

/-- Prepend a char to the first piece of a split result. -/
def consHead (x : Char) : List (List Char) → List (List Char)
  | [] => [[x]]
  | h :: t => (x :: h) :: t

/-- Split a char list at every occurrence of a separator char (the splitting
done by the compiled `strptime` regex between its directives). -/
def splitOnChar (c : Char) : List Char → List (List Char)
  | [] => [[]]
  | x :: rest =>
    if x = c then [] :: splitOnChar c rest else consHead x (splitOnChar c rest)

theorem splitOnChar_no_sep (c : Char) (a : List Char) (h : c ∉ a) :
    splitOnChar c a = [a] := by
  induction a with
  | nil => rfl
  | cons x rest ih =>
    have hx : ¬(x = c) := fun hxc => h (by simp [hxc])
    simp only [splitOnChar, if_neg hx, ih (fun hm => h (by simp [hm]))]
    rfl

theorem splitOnChar_append (c : Char) (a r : List Char) (h : c ∉ a) :
    splitOnChar c (a ++ c :: r) = a :: splitOnChar c r := by
  induction a with
  | nil => simp [splitOnChar]
  | cons x rest ih =>
    have hx : ¬(x = c) := fun hxc => h (by simp [hxc])
    simp only [List.cons_append, splitOnChar, if_neg hx, List.append_eq,
      ih (fun hm => h (by simp [hm]))]
    rfl

end PyStr

namespace Extractor

open PyStr

/-- Gregorian leap-year rule used by Python `datetime`. -/
def isLeapYear (y : Nat) : Bool :=
  (y % 4 == 0 && y % 100 != 0) || y % 400 == 0

/-- Days in a month, as validated by the `datetime.datetime` constructor. -/
def daysInMonth (y m : Nat) : Nat :=
  if m = 2 then (if isLeapYear y then 29 else 28)
  else if m = 4 ∨ m = 6 ∨ m = 9 ∨ m = 11 then 30
  else 31

/-- The `%d` directive of CPython `strptime`: one or two digits whose value
lies in `1..31` (regex `3[01]|[12]\d|0[1-9]|[1-9]`). -/
def matchDayL (l : List Char) : Option Nat :=
  if (l.length = 1 ∨ l.length = 2) ∧ l.all Char.isDigit ∧
      1 ≤ digitsVal l ∧ digitsVal l ≤ 31 then some (digitsVal l) else none

/-- The `%m` directive of CPython `strptime`: one or two digits whose value
lies in `1..12` (regex `1[0-2]|0[1-9]|[1-9]`). -/
def matchMonthL (l : List Char) : Option Nat :=
  if (l.length = 1 ∨ l.length = 2) ∧ l.all Char.isDigit ∧
      1 ≤ digitsVal l ∧ digitsVal l ≤ 12 then some (digitsVal l) else none

/-- The `%Y` directive of CPython `strptime`: exactly four digits
(regex `\d\d\d\d`). -/
def matchYearL (l : List Char) : Option Nat :=
  if l.length = 4 ∧ l.all Char.isDigit then some (digitsVal l) else none

/-- Combine the three directive matches; the `datetime` constructor then
requires `year ≥ 1` (four digits bound it by 9999) and the day at most the
month length. -/
def dmyCombine : Option Nat → Option Nat → Option Nat → Option (Nat × Nat × Nat)
  | some d, some m, some y =>
    if 1 ≤ y ∧ d ≤ daysInMonth y m then some (d, m, y) else none
  | _, _, _ => none

/-- The format matches only when the string splits into exactly three pieces
around `/`. -/
def strptimeParts : List (List Char) → Option (Nat × Nat × Nat)
  | [ds, ms, ys] => dmyCombine (matchDayL ds) (matchMonthL ms) (matchYearL ys)
  | _ => none

/-- `datetime.strptime(s, "%d/%m/%Y")` as a partial parse: the whole string
must be day `/` month `/` four-digit year, and the triple must be a valid
`datetime` date; `none` models the raised `ValueError`. -/
def strptimeDMY (l : List Char) : Option (Nat × Nat × Nat) :=
  strptimeParts (splitOnChar '/' l)

/-- Zero-pad the decimal rendering of `n` on the left to width `k`
(`strftime` zero-padding; `%Y` is modelled as padded to four digits, which
matches the rendering for every year ≥ 1000 — all years this parser can
meet in practice arrive as four-digit input). -/
def padDigits (k n : Nat) : List Char :=
  List.replicate (k - (natDigits n).length) '0' ++ natDigits n

/-- `PDFExtractor._normalize_date` (the identical private helper also appears
on `PDFValidator`): falsy input (`None`/`""`) gives `None`; otherwise
`strptime("%d/%m/%Y")` then `strftime("%Y-%m-%d")`, with the `ValueError`
branch caught and mapped to `None`.  Total: never raises. -/
def normalize_date (dateStr : Option String) : Option String :=
  match dateStr with
  | none => none
  | some s =>
    if s = "" then none
    else
      match strptimeDMY s.toList with
      | some (d, m, y) =>
        some ⟨padDigits 4 y ++ '-' :: (padDigits 2 m ++ '-' :: padDigits 2 d)⟩
      | none => none

/-- Spec-side rendering of a calendar date in `dd/mm/yyyy`. -/
def renderDMY (d m y : Nat) : String :=
  ⟨padDigits 2 d ++ '/' :: (padDigits 2 m ++ '/' :: padDigits 4 y)⟩

/-- Spec-side rendering of a calendar date in ISO-8601 `yyyy-mm-dd`. -/
def renderISO (y m d : Nat) : String :=
  ⟨padDigits 4 y ++ '-' :: (padDigits 2 m ++ '-' :: padDigits 2 d)⟩

/-- A valid calendar date representable in `dd/mm/yyyy` (the `datetime`
range: months 1–12, years 1–9999, day within the month length). -/
def ValidDMY (d m y : Nat) : Prop :=
  1 ≤ m ∧ m ≤ 12 ∧ 1 ≤ y ∧ y ≤ 9999 ∧ 1 ≤ d ∧ d ≤ daysInMonth y m

instance (d m y : Nat) : Decidable (ValidDMY d m y) := by
  unfold ValidDMY
  infer_instance

theorem daysInMonth_le_31 (y m : Nat) : daysInMonth y m ≤ 31 := by
  unfold daysInMonth
  split_ifs <;> omega

theorem padDigits_all_digit (k n : Nat) : ∀ c ∈ padDigits k n, c.isDigit = true := by
  intro c hc
  rcases List.mem_append.mp hc with h1 | h1
  · rw [List.eq_of_mem_replicate h1]
    decide
  · exact natDigits_all_digit n c h1

theorem padDigits_digitsVal (k n : Nat) : digitsVal (padDigits k n) = n := by
  unfold padDigits
  rw [digitsVal_leading_zeros, digitsVal_natDigits]

theorem padDigits_length (k n : Nat) (h : (natDigits n).length ≤ k) :
    (padDigits k n).length = k := by
  unfold padDigits
  simp only [List.length_append, List.length_replicate]
  omega

theorem natDigits_length_le_two (n : Nat) (h : n < 100) : (natDigits n).length ≤ 2 :=
  natDigits_length_le 2 n (by norm_num; omega) (by omega)

theorem natDigits_length_le_four (n : Nat) (h : n < 10000) : (natDigits n).length ≤ 4 :=
  natDigits_length_le 4 n (by norm_num; omega) (by omega)

theorem not_slash_mem_padDigits (k n : Nat) : '/' ∉ padDigits k n := by
  intro hmem
  exact absurd (padDigits_all_digit k n '/' hmem) (by decide)

/-- C7: for every well-formed `dd/mm/yyyy` rendering of a valid calendar
date, `_normalize_date` returns the ISO-8601 `yyyy-mm-dd` string for the
same calendar day; it returns `None` exactly when the input is absent,
empty, or fails to parse in that format; and it is a total function. -/
theorem normalize_date_spec :
    (∀ d m y, ValidDMY d m y →
        normalize_date (some (renderDMY d m y)) = some (renderISO y m d)) ∧
      (∀ s, normalize_date (some s) = none ↔ (s = "" ∨ strptimeDMY s.toList = none)) ∧
      normalize_date none = none := by
  refine ⟨?_, ?_, rfl⟩
  · intro d m y hv
    obtain ⟨hm1, hm2, hy1, hy2, hd1, hd2⟩ := hv
    have hd31 : d ≤ 31 := le_trans hd2 (daysInMonth_le_31 y m)
    have hdlen : (padDigits 2 d).length = 2 :=
      padDigits_length 2 d (natDigits_length_le_two d (by omega))
    have hmlen : (padDigits 2 m).length = 2 :=
      padDigits_length 2 m (natDigits_length_le_two m (by omega))
    have hylen : (padDigits 4 y).length = 4 :=
      padDigits_length 4 y (natDigits_length_le_four y (by omega))
    have hne : ¬(renderDMY d m y = "") := by
      intro hEq
      have : (renderDMY d m y).toList = [] := by rw [hEq]; rfl
      have hlenEq := congrArg List.length this
      simp only [renderDMY, String.toList, List.length_append, List.length_cons,
        List.length_nil] at hlenEq
      omega
    simp only [normalize_date]
    rw [if_neg hne]
    have htl : (renderDMY d m y).toList =
        padDigits 2 d ++ '/' :: (padDigits 2 m ++ '/' :: padDigits 4 y) := rfl
    rw [htl]
    unfold strptimeDMY
    rw [splitOnChar_append '/' _ _ (not_slash_mem_padDigits 2 d),
      splitOnChar_append '/' _ _ (not_slash_mem_padDigits 2 m),
      splitOnChar_no_sep '/' _ (not_slash_mem_padDigits 4 y)]
    have hday : matchDayL (padDigits 2 d) = some d := by
      have hall : (padDigits 2 d).all Char.isDigit = true :=
        List.all_eq_true.mpr (fun c hc => padDigits_all_digit 2 d c hc)
      have hcond : ((padDigits 2 d).length = 1 ∨ (padDigits 2 d).length = 2) ∧
          (padDigits 2 d).all Char.isDigit = true ∧
          1 ≤ digitsVal (padDigits 2 d) ∧ digitsVal (padDigits 2 d) ≤ 31 := by
        rw [padDigits_digitsVal]
        exact ⟨Or.inr hdlen, hall, hd1, hd31⟩
      unfold matchDayL
      rw [if_pos hcond, padDigits_digitsVal]
    have hmon : matchMonthL (padDigits 2 m) = some m := by
      have hall : (padDigits 2 m).all Char.isDigit = true :=
        List.all_eq_true.mpr (fun c hc => padDigits_all_digit 2 m c hc)
      have hcond : ((padDigits 2 m).length = 1 ∨ (padDigits 2 m).length = 2) ∧
          (padDigits 2 m).all Char.isDigit = true ∧
          1 ≤ digitsVal (padDigits 2 m) ∧ digitsVal (padDigits 2 m) ≤ 12 := by
        rw [padDigits_digitsVal]
        exact ⟨Or.inr hmlen, hall, hm1, hm2⟩
      unfold matchMonthL
      rw [if_pos hcond, padDigits_digitsVal]
    have hyr : matchYearL (padDigits 4 y) = some y := by
      have hall : (padDigits 4 y).all Char.isDigit = true :=
        List.all_eq_true.mpr (fun c hc => padDigits_all_digit 4 y c hc)
      unfold matchYearL
      rw [if_pos ⟨hylen, hall⟩, padDigits_digitsVal]
    simp only [strptimeParts]
    rw [hday, hmon, hyr]
    simp only [dmyCombine]
    rw [if_pos ⟨hy1, hd2⟩]
    rfl
  · intro s
    simp only [normalize_date]
    by_cases hs : s = ""
    · simp [hs]
    · rw [if_neg hs]
      cases hp : strptimeDMY s.toList with
      | none => simp [hs]
      | some v =>
        rcases v with ⟨d, m, y⟩
        simp [hs]

/-- Witness for C7 at the concrete date 21/10/2025. -/
theorem normalize_date_spec_witness :
    ValidDMY 21 10 2025 ∧
      normalize_date (some (renderDMY 21 10 2025)) = some (renderISO 2025 10 21) :=
  ⟨by decide, normalize_date_spec.1 21 10 2025 (by decide)⟩

end Extractor

namespace Extractor

open PyStr

/-- One money row of the summary (`bono` / `reembolso` / `totales`). -/
structure ResumenFila where
  prestacion : Int
  bonificado : Int
  caec : Int
  seguro : Int
  copago_afiliado : Int
  cheque : Option Int
deriving DecidableEq

/-- The three summary money rows. -/
structure ResumenFilas where
  bono : ResumenFila
  reembolso : ResumenFila
  totales : ResumenFila
deriving DecidableEq

/-- The three boolean consistency-equation flags. -/
structure Ecuaciones where
  totales_igual_bono_mas_reembolso : Bool
  prestacion_igual_suma_componentes : Bool
  copago_teorico_igual_presentado : Bool
deriving DecidableEq

/-- The `consistencia` block of the built record. -/
structure Consistencia where
  ecuaciones : Ecuaciones
  copago_teorico : Int
  diferencia_copago : Int
deriving DecidableEq

/-- The three derived percentage fields (Python floats, modelled as ℚ). -/
structure Porcentajes where
  bonificado_sobre_prestacion : ℚ
  caec_sobre_prestacion : ℚ
  seguro_sobre_prestacion : ℚ
deriving DecidableEq

/-- One `gasto`/`bonificado` pair of the breakdown table. -/
structure GastoBonificado where
  gasto : Int
  bonificado : Int
deriving DecidableEq

/-- The `desglose_bonificado` breakdown. -/
structure Desglose where
  plan_complementario : GastoBonificado
  ges : GastoBonificado
  ges_caec : GastoBonificado
  totales : GastoBonificado
deriving DecidableEq

/-- One line-item of a detail section. -/
structure DetalleItem where
  cantidad : Int
  codigo : String
  item : String
  descripcion : String
  grupo_cobertura : Int
  valor_unitario : Int
  valor_total : Int
  bonificacion : Int
  porcentaje_plan : ℚ
  caec : Int
  seguro : Int
  copago : Int
  tc : String
  folio_gc : Option String
  td : String
  folio_br : String
  min_fonasa : Bool
deriving DecidableEq

/-- A section subtotal. -/
structure Subtotal where
  valor_total : Int
  bonificacion : Int
  caec : Int
  seguro : Int
  copago : Int
deriving DecidableEq

/-- One detail section (`Hoteleria` / `ExamenesYProcedimientos`). -/
structure DetalleSeccion where
  seccion : String
  items : List DetalleItem
  subtotal : Subtotal
deriving DecidableEq

/-- What `PDFParser.extract_resumen` returns. -/
structure ResumenRaw where
  numero_prestaciones : Int
  moneda : String
  filas : ResumenFilas
  desglose_bonificado : Desglose
deriving DecidableEq

/-- The `resumen` block of the built record (`_build_resumen` output). -/
structure Resumen where
  numero_prestaciones : Int
  moneda : String
  filas : ResumenFilas
  desglose_bonificado : Desglose
  porcentajes : Porcentajes
  consistencia : Consistencia
deriving DecidableEq

/-- The `document` block of the built record. -/
structure JsonDocument where
  tipo : String
  emision : Option String
  fecha_entrega : Option String
  isapre : String
  estado : Option String
  es_ley_urgencia : Bool
  origen : Option String
  noveno : Option String
deriving DecidableEq

/-- A built party (`cotizante` / `paciente`). -/
structure BuiltPerson where
  rut : String
  nombre : String
deriving DecidableEq

/-- The `plan` block of the built record. -/
structure JsonPlan where
  codigo : Option String
  n_spm : Option String
  inicio_hospitalizacion : Option String
  tiene_gastos_ges : Bool
  tiene_gastos_caec : Bool
  tramita_por : Option String
  prestador : Option String
  sucursal_origen : Option String
deriving DecidableEq

/-- The complete built record (`extract_from_file` output shape). -/
structure JsonData where
  document : JsonDocument
  cotizante : BuiltPerson
  paciente : BuiltPerson
  plan : JsonPlan
  detalle : List DetalleSeccion
  resumen : Resumen
deriving DecidableEq

/-- `PDFExtractor._calculate_consistency`: equation 1 is three *exact* integer
equalities (one per money column); equations 2 and 3 carry the ±10 tolerance. -/
def calculate_consistency (filas : ResumenFilas) : Consistencia :=
  let bono := filas.bono
  let reembolso := filas.reembolso
  let totales := filas.totales
  let eq1 : Bool :=
    decide (totales.prestacion = bono.prestacion + reembolso.prestacion) &&
      decide (totales.bonificado = bono.bonificado + reembolso.bonificado) &&
      decide (totales.caec = bono.caec + reembolso.caec)
  let prestacion_calculada :=
    totales.bonificado + totales.caec + totales.seguro + totales.copago_afiliado
  let eq2 : Bool := decide (|totales.prestacion - prestacion_calculada| ≤ 10)
  let copago_teorico :=
    totales.prestacion - totales.bonificado - totales.caec - totales.seguro
  let eq3 : Bool := decide (|copago_teorico - totales.copago_afiliado| ≤ 10)
  { ecuaciones :=
      { totales_igual_bono_mas_reembolso := eq1
        prestacion_igual_suma_componentes := eq2
        copago_teorico_igual_presentado := eq3 }
    copago_teorico := copago_teorico
    diferencia_copago := copago_teorico - totales.copago_afiliado }

/-- `PDFExtractor._normalize_rut` (and the identical `PDFValidator` helper):
falsy input gives `""`; otherwise drop `.`, `,`, spaces and uppercase. -/
def normalize_rut (rut : Option String) : String :=
  match rut with
  | none => ""
  | some s =>
    if s = "" then ""
    else ⟨(removeAll ' ' (removeAll ',' (removeAll '.' s.toList))).map Char.toUpper⟩

/-- Result shape of `PDFParser.extract_cotizante`/`extract_paciente`. -/
structure PersonData where
  rut : Option String
  nombre : Option String
deriving DecidableEq

/-- `PDFParser.extract_cotizante`, with the `re.search` result passed in as
an oracle (`some (group1, group2)` on a match, `none` otherwise): on a match
both groups are stripped; with no match both fields are `None`. -/
def extract_cotizante (m : Option (String × String)) : PersonData :=
  match m with
  | some (r, n) => { rut := some (pyStripS r), nombre := some (pyStripS n) }
  | none => { rut := none, nombre := none }

/-- `PDFParser.extract_paciente`, same structure as `extract_cotizante` but
driven by the `Paciente`-pattern match. -/
def extract_paciente (m : Option (String × String)) : PersonData :=
  match m with
  | some (r, n) => { rut := some (pyStripS r), nombre := some (pyStripS n) }
  | none => { rut := none, nombre := none }

/-- The Python exceptions the modelled pipeline can raise. -/
inductive PyError
  | attributeError
deriving DecidableEq

/-- `PDFExtractor._build_person`: `person_data.get("rut", "")` returns the
stored value (possibly `None`, which `_normalize_rut` maps to `""`), but
`person_data.get("nombre", "").strip()` calls `.strip()` on the stored value,
so a stored `None` raises `AttributeError`. -/
def build_person (p : PersonData) : Except PyError BuiltPerson :=
  match p.nombre with
  | none => .error .attributeError
  | some n => .ok { rut := normalize_rut p.rut, nombre := pyStripS n }

/-- `PDFParser.extract_dates` result shape. -/
structure ParsedDates where
  emision : Option String
  fecha_entrega : Option String
deriving DecidableEq

/-- `PDFParser.extract_plan_info` result shape. -/
structure PlanInfo where
  codigo : Option String
  n_spm : Option String
  inicio_hospitalizacion : Option String
  estado : Option String
  tiene_gastos_ges : Bool
  tiene_gastos_caec : Bool
  es_ley_urgencia : Bool
  prestador : Option String
  sucursal_origen : Option String
  tramita_por : Option String
  origen : Option String
deriving DecidableEq

/-- The complete result of parsing one document's text (every `PDFParser`
extraction the extractor and validator consume, with the regex searches
resolved into their result shapes). -/
structure ParsedPDF where
  dates : ParsedDates
  cotizanteMatch : Option (String × String)
  pacienteMatch : Option (String × String)
  plan_info : PlanInfo
  detalle : List DetalleSeccion
  resumen : ResumenRaw
deriving DecidableEq

/-- `PDFExtractor._build_document`. -/
def build_document (parsed : ParsedPDF) : JsonDocument :=
  { tipo := "LIQUIDACION_PROGRAMA_MEDICO"
    emision := normalize_date parsed.dates.emision
    fecha_entrega := normalize_date parsed.dates.fecha_entrega
    isapre := "CruzBlanca"
    estado := parsed.plan_info.estado
    es_ley_urgencia := parsed.plan_info.es_ley_urgencia
    origen := parsed.plan_info.origen
    noveno := none }

/-- `PDFExtractor._build_plan`. -/
def build_plan (parsed : ParsedPDF) : JsonPlan :=
  { codigo := parsed.plan_info.codigo
    n_spm := parsed.plan_info.n_spm
    inicio_hospitalizacion := normalize_date parsed.plan_info.inicio_hospitalizacion
    tiene_gastos_ges := parsed.plan_info.tiene_gastos_ges
    tiene_gastos_caec := parsed.plan_info.tiene_gastos_caec
    tramita_por := parsed.plan_info.tramita_por
    prestador := parsed.plan_info.prestador
    sucursal_origen := parsed.plan_info.sucursal_origen }

/-- `PDFExtractor._build_resumen`: zero-safe percentages over total
prestación plus the consistency flags. -/
def build_resumen (parsed : ParsedPDF) : Resumen :=
  let raw := parsed.resumen
  let totales := raw.filas.totales
  let prestacion := totales.prestacion
  let porcentajes : Porcentajes :=
    if 0 < prestacion then
      { bonificado_sobre_prestacion := (totales.bonificado : ℚ) / (prestacion : ℚ)
        caec_sobre_prestacion := (totales.caec : ℚ) / (prestacion : ℚ)
        seguro_sobre_prestacion := (totales.seguro : ℚ) / (prestacion : ℚ) }
    else
      { bonificado_sobre_prestacion := 0
        caec_sobre_prestacion := 0
        seguro_sobre_prestacion := 0 }
  { numero_prestaciones := raw.numero_prestaciones
    moneda := raw.moneda
    filas := raw.filas
    desglose_bonificado := raw.desglose_bonificado
    porcentajes := porcentajes
    consistencia := calculate_consistency raw.filas }

/-- `PDFExtractor.extract_from_file` (the record assembly after parsing; the
two `_build_person` calls are the only raising steps, evaluated in source
order). -/
def extract_from_file (parsed : ParsedPDF) : Except PyError JsonData := do
  let document := build_document parsed
  let cot ← build_person (extract_cotizante parsed.cotizanteMatch)
  let pac ← build_person (extract_paciente parsed.pacienteMatch)
  pure
    { document := document
      cotizante := cot
      paciente := pac
      plan := build_plan parsed
      detalle := parsed.detalle
      resumen := build_resumen parsed }

/-- All-zero summary row. -/
def zeroFila : ResumenFila :=
  { prestacion := 0, bonificado := 0, caec := 0, seguro := 0,
    copago_afiliado := 0, cheque := none }

/-- Non-negativity of the money fields of a summary row. -/
def MoneyNonneg (f : ResumenFila) : Prop :=
  0 ≤ f.prestacion ∧ 0 ≤ f.bonificado ∧ 0 ≤ f.caec ∧ 0 ≤ f.seguro ∧
    0 ≤ f.copago_afiliado

instance (f : ResumenFila) : Decidable (MoneyNonneg f) := by
  unfold MoneyNonneg
  infer_instance

/-- Row set whose only deviation is `totales.prestacion = 5` with
`bono = reembolso = 0`: within the ±10 tolerance but not exactly equal. -/
def tolFilas : ResumenFilas :=
  { bono := zeroFila, reembolso := zeroFila,
    totales := { zeroFila with prestacion := 5 } }

/-- C2 counterexample: on `tolFilas` every column satisfies
`|totales − (bono + reembolso)| ≤ 10`, yet the flag computed by
`_calculate_consistency` is `false` — equation 1 uses exact equality, not
the ±10 tolerance the claim states. -/
theorem calculate_consistency_eq1_not_tolerant :
    (|tolFilas.totales.prestacion - (tolFilas.bono.prestacion + tolFilas.reembolso.prestacion)| ≤ 10 ∧
      |tolFilas.totales.bonificado - (tolFilas.bono.bonificado + tolFilas.reembolso.bonificado)| ≤ 10 ∧
      |tolFilas.totales.caec - (tolFilas.bono.caec + tolFilas.reembolso.caec)| ≤ 10) ∧
      MoneyNonneg tolFilas.bono ∧ MoneyNonneg tolFilas.reembolso ∧
      MoneyNonneg tolFilas.totales ∧
      (calculate_consistency tolFilas).ecuaciones.totales_igual_bono_mas_reembolso = false := by
  decide

/-- C2 (amended): for non-negative integer money rows the flag
`totales_igual_bono_mas_reembolso` is `true` iff each of the three money
columns satisfies `totales = bono + reembolso` *exactly* (no tolerance;
the ±10 tolerance applies only to equations 2 and 3). -/
theorem calculate_consistency_eq1_exact (filas : ResumenFilas)
    (hb : MoneyNonneg filas.bono) (hr : MoneyNonneg filas.reembolso)
    (ht : MoneyNonneg filas.totales) :
    (calculate_consistency filas).ecuaciones.totales_igual_bono_mas_reembolso = true ↔
      (filas.totales.prestacion = filas.bono.prestacion + filas.reembolso.prestacion ∧
        filas.totales.bonificado = filas.bono.bonificado + filas.reembolso.bonificado ∧
        filas.totales.caec = filas.bono.caec + filas.reembolso.caec) := by
  simp [calculate_consistency, Bool.and_eq_true, and_assoc]

/-- Witness for the amended C2 at the all-zero row set. -/
theorem calculate_consistency_eq1_exact_witness :
    (calculate_consistency ⟨zeroFila, zeroFila, zeroFila⟩).ecuaciones.totales_igual_bono_mas_reembolso = true ↔
      ((⟨zeroFila, zeroFila, zeroFila⟩ : ResumenFilas).totales.prestacion =
          (⟨zeroFila, zeroFila, zeroFila⟩ : ResumenFilas).bono.prestacion +
            (⟨zeroFila, zeroFila, zeroFila⟩ : ResumenFilas).reembolso.prestacion ∧
        (⟨zeroFila, zeroFila, zeroFila⟩ : ResumenFilas).totales.bonificado =
          (⟨zeroFila, zeroFila, zeroFila⟩ : ResumenFilas).bono.bonificado +
            (⟨zeroFila, zeroFila, zeroFila⟩ : ResumenFilas).reembolso.bonificado ∧
        (⟨zeroFila, zeroFila, zeroFila⟩ : ResumenFilas).totales.caec =
          (⟨zeroFila, zeroFila, zeroFila⟩ : ResumenFilas).bono.caec +
            (⟨zeroFila, zeroFila, zeroFila⟩ : ResumenFilas).reembolso.caec) :=
  calculate_consistency_eq1_exact ⟨zeroFila, zeroFila, zeroFila⟩
    (by decide) (by decide) (by decide)

end Extractor

namespace Extractor

/-- All-`None` plan info. -/
def emptyPlanInfo : PlanInfo :=
  { codigo := none, n_spm := none, inicio_hospitalizacion := none, estado := none,
    tiene_gastos_ges := false, tiene_gastos_caec := false, es_ley_urgencia := false,
    prestador := none, sucursal_origen := none, tramita_por := none, origen := none }

/-- All-zero breakdown. -/
def zeroDesglose : Desglose :=
  { plan_complementario := ⟨0, 0⟩, ges := ⟨0, 0⟩, ges_caec := ⟨0, 0⟩, totales := ⟨0, 0⟩ }

/-- A document text on which neither party pattern matches. -/
def noPartyParsed : ParsedPDF :=
  { dates := ⟨none, none⟩
    cotizanteMatch := none
    pacienteMatch := none
    plan_info := emptyPlanInfo
    detalle := []
    resumen := ⟨0, "CLP", ⟨zeroFila, zeroFila, zeroFila⟩, zeroDesglose⟩ }

/-- C9: `extract_from_file` is not total at its public interface — when the
`Cotizante` pattern finds no match, `extract_cotizante` returns a record with
both fields `None`, and `_build_person` raises (`None.strip()`) instead of
returning empty party fields; a record is produced only when both party
patterns match. -/
theorem extract_from_file_party_safety (parsed : ParsedPDF) :
    extract_cotizante none = { rut := none, nombre := none } ∧
      (parsed.cotizanteMatch = none →
        extract_from_file parsed = .error .attributeError) ∧
      (∀ j, extract_from_file parsed = .ok j →
        parsed.cotizanteMatch.isSome = true ∧ parsed.pacienteMatch.isSome = true) := by
  refine ⟨rfl, ?_, ?_⟩
  · intro h
    simp only [extract_from_file, h, extract_cotizante, build_person]
    rfl
  · intro j hj
    cases hc : parsed.cotizanteMatch with
    | none =>
      rw [show extract_from_file parsed = .error .attributeError by
        simp only [extract_from_file, hc, extract_cotizante, build_person]
        rfl] at hj
      exact absurd hj (by simp)
    | some rc =>
      cases hp : parsed.pacienteMatch with
      | none =>
        rcases rc with ⟨r, n⟩
        rw [show extract_from_file parsed = .error .attributeError by
          simp only [extract_from_file, hc, hp, extract_cotizante, extract_paciente,
            build_person]
          rfl] at hj
        exact absurd hj (by simp)
      | some rp => exact ⟨by simp [hc], by simp [hp]⟩

/-- Witness for C9: on a concrete no-match document the extraction raises. -/
theorem extract_from_file_party_safety_witness :
    extract_from_file noPartyParsed = .error .attributeError :=
  (extract_from_file_party_safety noPartyParsed).2.1 rfl

end Extractor

namespace Validator

open PyStr Extractor

/-- One entry of the verdict's error list.  The heterogeneous
`expected`/`actual` payloads of the Python dict are elided — they never
influence `is_valid` or `total_errors`. -/
structure VError where
  sec : String
  field : String
  message : String
deriving DecidableEq

/-- `PDFValidator.validate` return shape. -/
structure Verdict where
  is_valid : Bool
  total_errors : Nat
  errors : List VError
deriving DecidableEq

/-- Constraints of `LIQUIDACION_SCHEMA` that a well-typed `JsonData` can
still violate: `const` fields, required-but-`None` string fields, `minItems`
on `detalle` and each section's `items`, `minimum: 0` on the integer money
fields, and the `[0,1]` bounds on the percentage numbers.  (`format: date`
is annotation-only: `jsonschema.validate` is called without a format
checker, so it is not enforced.) -/
def itemSchemaOk (it : DetalleItem) : Bool :=
  decide (0 ≤ it.cantidad) && decide (0 ≤ it.valor_unitario) &&
    decide (0 ≤ it.valor_total) && decide (0 ≤ it.bonificacion) &&
    decide (0 ≤ it.porcentaje_plan) && decide (it.porcentaje_plan ≤ 1) &&
    decide (0 ≤ it.caec) && decide (0 ≤ it.seguro) && decide (0 ≤ it.copago)

/-- Schema constraints on a subtotal. -/
def subtotalSchemaOk (st : Subtotal) : Bool :=
  decide (0 ≤ st.valor_total) && decide (0 ≤ st.bonificacion) &&
    decide (0 ≤ st.caec) && decide (0 ≤ st.seguro) && decide (0 ≤ st.copago)

/-- Schema constraints on a summary row. -/
def filaSchemaOk (f : ResumenFila) : Bool :=
  decide (0 ≤ f.prestacion) && decide (0 ≤ f.bonificado) && decide (0 ≤ f.caec) &&
    decide (0 ≤ f.seguro) && decide (0 ≤ f.copago_afiliado) &&
    (match f.cheque with
     | none => true
     | some c => decide (0 ≤ c))

/-- Schema constraints on the whole record (see `itemSchemaOk`). -/
def schemaOk (d : JsonData) : Bool :=
  (d.document.tipo == "LIQUIDACION_PROGRAMA_MEDICO") &&
    d.document.emision.isSome && d.document.fecha_entrega.isSome &&
    d.document.estado.isSome && d.document.origen.isSome &&
    d.plan.codigo.isSome && d.plan.n_spm.isSome &&
    d.plan.inicio_hospitalizacion.isSome && d.plan.tramita_por.isSome &&
    d.plan.prestador.isSome &&
    !d.detalle.isEmpty &&
    d.detalle.all (fun sec =>
      !sec.items.isEmpty && sec.items.all itemSchemaOk && subtotalSchemaOk sec.subtotal) &&
    decide (0 ≤ d.resumen.numero_prestaciones) && (d.resumen.moneda == "CLP") &&
    filaSchemaOk d.resumen.filas.bono && filaSchemaOk d.resumen.filas.reembolso &&
    filaSchemaOk d.resumen.filas.totales &&
    decide (0 ≤ d.resumen.porcentajes.bonificado_sobre_prestacion) &&
    decide (d.resumen.porcentajes.bonificado_sobre_prestacion ≤ 1) &&
    decide (0 ≤ d.resumen.porcentajes.caec_sobre_prestacion) &&
    decide (d.resumen.porcentajes.caec_sobre_prestacion ≤ 1) &&
    decide (0 ≤ d.resumen.porcentajes.seguro_sobre_prestacion) &&
    decide (d.resumen.porcentajes.seguro_sobre_prestacion ≤ 1) &&
    decide (0 ≤ d.resumen.desglose_bonificado.plan_complementario.gasto) &&
    decide (0 ≤ d.resumen.desglose_bonificado.plan_complementario.bonificado) &&
    decide (0 ≤ d.resumen.desglose_bonificado.ges.gasto) &&
    decide (0 ≤ d.resumen.desglose_bonificado.ges.bonificado) &&
    decide (0 ≤ d.resumen.desglose_bonificado.ges_caec.gasto) &&
    decide (0 ≤ d.resumen.desglose_bonificado.ges_caec.bonificado) &&
    decide (0 ≤ d.resumen.desglose_bonificado.totales.gasto) &&
    decide (0 ≤ d.resumen.desglose_bonificado.totales.bonificado)

/-- `PDFValidator._validate_schema`: `jsonschema.validate` raises at most one
(best-match) `ValidationError`, appended as a single error entry. -/
def validate_schema (d : JsonData) : List VError :=
  if schemaOk d then [] else [⟨"schema", "root", "schema validation failed"⟩]

/-- `PDFValidator._validate_dates`. -/
def validate_dates (parsed : ParsedPDF) (json : JsonData) : List VError :=
  (if normalize_date parsed.dates.emision ≠ json.document.emision then
      [⟨"document", "emision", "Fecha de emisión no coincide con PDF"⟩] else []) ++
    (if normalize_date parsed.dates.fecha_entrega ≠ json.document.fecha_entrega then
      [⟨"document", "fecha_entrega", "Fecha de entrega no coincide con PDF"⟩] else [])

/-- `PDFValidator._validate_persons` (only the RUTs are compared). -/
def validate_persons (parsed : ParsedPDF) (json : JsonData) : List VError :=
  (if normalize_rut (extract_cotizante parsed.cotizanteMatch).rut ≠ json.cotizante.rut then
      [⟨"cotizante", "rut", "RUT no coincide con PDF"⟩] else []) ++
    (if normalize_rut (extract_paciente parsed.pacienteMatch).rut ≠ json.paciente.rut then
      [⟨"paciente", "rut", "RUT no coincide con PDF"⟩] else [])

/-- `PDFValidator._validate_plan_info` (only `codigo` and `n_spm`). -/
def validate_plan_info (parsed : ParsedPDF) (json : JsonData) : List VError :=
  (if parsed.plan_info.codigo ≠ json.plan.codigo then
      [⟨"plan", "codigo", "Código de plan no coincide"⟩] else []) ++
    (if parsed.plan_info.n_spm ≠ json.plan.n_spm then
      [⟨"plan", "n_spm", "N° SPM no coincide"⟩] else [])

/-- Subtotal field comparisons for one section pair. -/
def sectionErrors (sp sj : DetalleSeccion) : List VError :=
  (if sp.subtotal.valor_total ≠ sj.subtotal.valor_total then
      [⟨"detalle", "subtotal.valor_total", "Subtotal valor_total no coincide con PDF"⟩] else []) ++
    (if sp.subtotal.bonificacion ≠ sj.subtotal.bonificacion then
      [⟨"detalle", "subtotal.bonificacion", "Subtotal bonificacion no coincide con PDF"⟩] else []) ++
    (if sp.subtotal.caec ≠ sj.subtotal.caec then
      [⟨"detalle", "subtotal.caec", "Subtotal caec no coincide con PDF"⟩] else []) ++
    (if sp.subtotal.seguro ≠ sj.subtotal.seguro then
      [⟨"detalle", "subtotal.seguro", "Subtotal seguro no coincide con PDF"⟩] else []) ++
    (if sp.subtotal.copago ≠ sj.subtotal.copago then
      [⟨"detalle", "subtotal.copago", "Subtotal copago no coincide con PDF"⟩] else []) ++
    (if sp.items.length ≠ sj.items.length then
      [⟨"detalle", "items_count", "Número de items no coincide"⟩] else [])

/-- `PDFValidator._validate_detalle`: on a section-count mismatch, a single
error and an early return; otherwise per-section subtotal and item-count
comparisons over the zipped section lists. -/
def validate_detalle (parsed : ParsedPDF) (json : JsonData) : List VError :=
  if parsed.detalle.length ≠ json.detalle.length then
    [⟨"detalle", "secciones_count", "Número de secciones no coincide"⟩]
  else
    (parsed.detalle.zip json.detalle).flatMap (fun p => sectionErrors p.1 p.2)

/-- Field comparisons for one summary-row pair (`cheque` is not compared). -/
def filaErrors (name : String) (fp fj : ResumenFila) : List VError :=
  (if fp.prestacion ≠ fj.prestacion then
      [⟨"resumen", name ++ ".prestacion", "no coincide con PDF"⟩] else []) ++
    (if fp.bonificado ≠ fj.bonificado then
      [⟨"resumen", name ++ ".bonificado", "no coincide con PDF"⟩] else []) ++
    (if fp.caec ≠ fj.caec then
      [⟨"resumen", name ++ ".caec", "no coincide con PDF"⟩] else []) ++
    (if fp.seguro ≠ fj.seguro then
      [⟨"resumen", name ++ ".seguro", "no coincide con PDF"⟩] else []) ++
    (if fp.copago_afiliado ≠ fj.copago_afiliado then
      [⟨"resumen", name ++ ".copago_afiliado", "no coincide con PDF"⟩] else [])

/-- `PDFValidator._validate_resumen`. -/
def validate_resumen (parsed : ParsedPDF) (json : JsonData) : List VError :=
  (if parsed.resumen.numero_prestaciones ≠ json.resumen.numero_prestaciones then
      [⟨"resumen", "numero_prestaciones", "Número de prestaciones no coincide"⟩] else []) ++
    filaErrors "filas.bono" parsed.resumen.filas.bono json.resumen.filas.bono ++
    filaErrors "filas.reembolso" parsed.resumen.filas.reembolso json.resumen.filas.reembolso ++
    filaErrors "filas.totales" parsed.resumen.filas.totales json.resumen.filas.totales

/-- `PDFValidator._validate_content`. -/
def validate_content (parsed : ParsedPDF) (json : JsonData) : List VError :=
  validate_dates parsed json ++ validate_persons parsed json ++
    validate_plan_info parsed json ++ validate_detalle parsed json ++
    validate_resumen parsed json

/-- `PDFValidator._validate_numeric_consistency`: one error entry per
**false** equation flag, in the dict's insertion order. -/
def validate_numeric_consistency (json : JsonData) : List VError :=
  let e := json.resumen.consistencia.ecuaciones
  (if e.totales_igual_bono_mas_reembolso = false then
      [⟨"consistencia", "totales_igual_bono_mas_reembolso",
        "Ecuación totales_igual_bono_mas_reembolso no se cumple"⟩] else []) ++
    (if e.prestacion_igual_suma_componentes = false then
      [⟨"consistencia", "prestacion_igual_suma_componentes",
        "Ecuación prestacion_igual_suma_componentes no se cumple"⟩] else []) ++
    (if e.copago_teorico_igual_presentado = false then
      [⟨"consistencia", "copago_teorico_igual_presentado",
        "Ecuación copago_teorico_igual_presentado no se cumple"⟩] else [])

/-- `PDFValidator.validate`: schema errors, then content errors against the
fresh re-parse of the same source, then numeric-consistency errors;
`is_valid` iff the combined list is empty. -/
def validate (parsed : ParsedPDF) (json : JsonData) : Verdict :=
  let errors := validate_schema json ++ validate_content parsed json ++
    validate_numeric_consistency json
  { is_valid := errors.isEmpty, total_errors := errors.length, errors := errors }

end Validator

deriving instance DecidableEq for Except

namespace Validator

open PyStr Extractor

/-- Summary rows whose only defect is `totales.bonificado = 5` against
`bono = reembolso = 0` (equation 1 false; equations 2 and 3 hold within the
±10 tolerance; `prestacion = 0` keeps the percentages on the zero-safe
branch). -/
def c1Filas : ResumenFilas :=
  { bono := zeroFila, reembolso := zeroFila,
    totales := { zeroFila with bonificado := 5 } }

/-- A schema-valid concrete line item. -/
def c1Item : DetalleItem :=
  { cantidad := 1, codigo := "01", item := "0", descripcion := "D",
    grupo_cobertura := 1, valor_unitario := 0, valor_total := 0,
    bonificacion := 0, porcentaje_plan := 0, caec := 0, seguro := 0,
    copago := 0, tc := "CA", folio_gc := none, td := "BO", folio_br := "1",
    min_fonasa := false }

/-- A concrete parsed document whose only irregularity is the failing
accounting equation in its summary rows. -/
def c1Parsed : ParsedPDF :=
  { dates := ⟨some "21/10/2025", some "18/03/2025"⟩
    cotizanteMatch := some ("11,119,228-6", "PEDRO ARANCIBIA")
    pacienteMatch := some ("10,409,306-K", "MYRTA FUENZALIDA")
    plan_info :=
      { codigo := some "P123", n_spm := some "456",
        inicio_hospitalizacion := some "01/10/2025", estado := some "EMITIDO",
        tiene_gastos_ges := false, tiene_gastos_caec := false,
        es_ley_urgencia := false, prestador := some "CLINICA X",
        sucursal_origen := none, tramita_por := some "WEB", origen := some "WEB" }
    detalle := [⟨"Hoteleria", [c1Item], ⟨0, 0, 0, 0, 0⟩⟩]
    resumen := ⟨1, "CLP", c1Filas, zeroDesglose⟩ }

/-- The record the extractor builds from `c1Parsed` (checked below). -/
def c1Json : JsonData :=
  { document :=
      { tipo := "LIQUIDACION_PROGRAMA_MEDICO", emision := some "2025-10-21",
        fecha_entrega := some "2025-03-18", isapre := "CruzBlanca",
        estado := some "EMITIDO", es_ley_urgencia := false,
        origen := some "WEB", noveno := none }
    cotizante := ⟨"11119228-6", "PEDRO ARANCIBIA"⟩
    paciente := ⟨"10409306-K", "MYRTA FUENZALIDA"⟩
    plan :=
      { codigo := some "P123", n_spm := some "456",
        inicio_hospitalizacion := some "2025-10-01", tiene_gastos_ges := false,
        tiene_gastos_caec := false, tramita_por := some "WEB",
        prestador := some "CLINICA X", sucursal_origen := none }
    detalle := [⟨"Hoteleria", [c1Item], ⟨0, 0, 0, 0, 0⟩⟩]
    resumen :=
      { numero_prestaciones := 1, moneda := "CLP", filas := c1Filas,
        desglose_bonificado := zeroDesglose
        porcentajes := ⟨0, 0, 0⟩
        consistencia :=
          { ecuaciones :=
              { totales_igual_bono_mas_reembolso := false
                prestacion_igual_suma_componentes := true
                copago_teorico_igual_presentado := true }
            copago_teorico := -5, diferencia_copago := -5 } } }

/-- `c1Json` with the false equation flag flipped to `true` and everything
else identical. -/
def c1JsonTrue : JsonData :=
  { c1Json with
      resumen :=
        { c1Json.resumen with
            consistencia :=
              { c1Json.resumen.consistencia with
                  ecuaciones :=
                    { c1Json.resumen.consistencia.ecuaciones with
                        totales_igual_bono_mas_reembolso := true } } } }

/-- C1 counterexample: `c1Json` is exactly what the extractor produces for
`c1Parsed`, its only defect is the false equation-1 flag, and
`PDFValidator.validate` rejects it (`is_valid = false`) while accepting the
flag-flipped twin — so `is_valid` *does* depend on the boolean values in
`resumen.consistencia.ecuaciones`, contrary to the claim. -/
theorem validate_depends_on_flag_counterexample :
    extract_from_file c1Parsed = .ok c1Json ∧
      c1Json.resumen.consistencia.ecuaciones.totales_igual_bono_mas_reembolso = false ∧
      (validate c1Parsed c1Json).is_valid = false ∧
      (validate c1Parsed c1JsonTrue).is_valid = true := by
  refine ⟨by decide, by decide, by decide, by decide⟩

/-- C1 (amended): a false accounting-equation flag is *not* accepted:
`_validate_numeric_consistency` adds one error entry per false flag, so any
record carrying a false flag gets `is_valid = false` (the extractor records
the flag without raising, but the validator rejects the record). -/
theorem validate_rejects_false_flag (parsed : ParsedPDF) (json : JsonData)
    (h : json.resumen.consistencia.ecuaciones.totales_igual_bono_mas_reembolso = false ∨
      json.resumen.consistencia.ecuaciones.prestacion_igual_suma_componentes = false ∨
      json.resumen.consistencia.ecuaciones.copago_teorico_igual_presentado = false) :
    (validate parsed json).is_valid = false := by
  have hne : validate_numeric_consistency json ≠ [] := by
    unfold validate_numeric_consistency
    rcases h with h | h | h <;> simp [h]
  have hiv : (validate parsed json).is_valid =
      (validate_schema json ++ validate_content parsed json ++
        validate_numeric_consistency json).isEmpty := rfl
  rw [hiv]
  cases hc2 : validate_schema json ++ validate_content parsed json ++
      validate_numeric_consistency json with
  | nil =>
    exfalso
    exact hne (List.append_eq_nil.mp hc2).2
  | cons a t => rfl

/-- Witness for the amended C1 at the concrete rejected record. -/
theorem validate_rejects_false_flag_witness :
    (validate c1Parsed c1Json).is_valid = false :=
  validate_rejects_false_flag c1Parsed c1Json (Or.inl (by decide))

end Validator

namespace PdfParser

open PyStr Extractor

/-- Python substring containment (`needle in line`) as a Bool. -/
def isInfixOfB (needle : List Char) : List Char → Bool
  | [] => needle.isEmpty
  | c :: rest => needle.isPrefixOf (c :: rest) || isInfixOfB needle rest

/-- Python `if idx :` truthiness for an optional line index: `None` and `0`
are both falsy — the root of the first-line edge case. -/
def optTruthyNat : Option Nat → Bool
  | none => false
  | some 0 => false
  | some (_ + 1) => true

/-- The shared shape of the section-bound scans in `_extract_hoteleria` and
`_extract_resumen_filas`: walk the lines once; every line satisfying
`pS` (re)assigns the start index; the first line satisfying `pB` *after the
start index is truthy* records the end index and breaks. -/
def lineScan (pS pB : List Char → Bool) :
    Option Nat → Nat → List (List Char) → Option Nat × Option Nat
  | s, _, [] => (s, none)
  | s, i, l :: rest =>
    let s2 := if pS l then some i else s
    if optTruthyNat s2 && pB l then (s2, some i)
    else lineScan pS pB s2 (i + 1) rest

def hotelLabel : List Char := "Detalle Hoteleria".toList

def hotelEndLabel : List Char := "SubTotal Hoteleria".toList

def subTotalWord : List Char := "SubTotal".toList

def resumenLabel : List Char := "Resumen:".toList

def totalBonifLine : List Char := "Total Bonificado (1)".toList

/-- The start/end scan of `_extract_hoteleria` (`'Detalle Hoteleria' in
line` / `'SubTotal Hoteleria' in line`). -/
def hotelScan (lines : List (List Char)) : Option Nat × Option Nat :=
  lineScan (fun l => isInfixOfB hotelLabel l) (fun l => isInfixOfB hotelEndLabel l)
    none 0 lines

/-- The start/end scan of `_extract_resumen_filas` (`'Resumen:' in line` /
`line.strip() == 'Total Bonificado (1)'`). -/
def resumenScan (lines : List (List Char)) : Option Nat × Option Nat :=
  lineScan (fun l => isInfixOfB resumenLabel l)
    (fun l => pyStrip l == totalBonifLine) none 0 lines

/-- The item loop of `_extract_hoteleria`: indices from `start_idx + 2` up
to the (truthiness-resolved) end bound; a blank or `SubTotal` line breaks;
`_parse_detail_line` — a fixed-arity regex over external text, passed in as
the `itemOf` oracle — keeps a row only when it matches. -/
def collectItems (itemOf : List Char → Option DetalleItem)
    (lines : List (List Char)) (i stop : Nat) : List DetalleItem :=
  if h : i < stop then
    if pyStrip (lines.getD i []) = [] ∨
        isInfixOfB subTotalWord (pyStrip (lines.getD i [])) then []
    else
      match itemOf (pyStrip (lines.getD i [])) with
      | some it => it :: collectItems itemOf lines (i + 1) stop
      | none => collectItems itemOf lines (i + 1) stop
  else []
termination_by stop - i

theorem dropWhile_length_le (p : Char → Bool) (l : List Char) :
    (l.dropWhile p).length ≤ l.length := by
  induction l with
  | nil => simp
  | cons c rest ih =>
    rw [List.dropWhile_cons]
    split
    · simp only [List.length_cons]
      omega
    · simp

/-- `re.findall(r"\$\s*([\d,]+)", line)`: scan left to right; at each `$`,
skip whitespace and capture a maximal non-empty run of digits/commas.
(`re.findall` resumes after each matched span; since a matched span never
contains another `$`, resuming right after the `$` finds the same matches,
which keeps this recursion structural.) -/
def findAmounts : List Char → List (List Char)
  | [] => []
  | c :: rest =>
    if c = '$' then
      if ((rest.dropWhile Char.isWhitespace).takeWhile
          (fun x => x.isDigit || x = ',')).isEmpty then
        findAmounts rest
      else
        ((rest.dropWhile Char.isWhitespace).takeWhile (fun x => x.isDigit || x = ',')) ::
          findAmounts rest
    else findAmounts rest

/-- `PDFParser._empty_subtotal`. -/
def emptySubtotal : Subtotal := ⟨0, 0, 0, 0, 0⟩

/-- `PDFParser._parse_subtotal_line`: five or more `$`-amounts, else empty. -/
def parse_subtotal_line (l : List Char) : Subtotal :=
  let amounts := findAmounts l
  if 5 ≤ amounts.length then
    { valor_total := parseAmountL (amounts.getD 0 [])
      bonificacion := parseAmountL (amounts.getD 1 [])
      caec := parseAmountL (amounts.getD 2 [])
      seguro := parseAmountL (amounts.getD 3 [])
      copago := parseAmountL (amounts.getD 4 []) }
  else emptySubtotal

/-- Python `self.lines.index(line)`: index of the first *equal* line. -/
def findIdxOfLine (lines : List (List Char)) (l : List Char) : Nat :=
  lines.findIdx (fun x => x == l)

/-- `PDFParser._extract_subtotal_hoteleria`: first line containing
`SubTotal Hoteleria` whose successor exists gives the amounts line. -/
def subtotalHoteleriaGo (lines : List (List Char)) : List (List Char) → Subtotal
  | [] => emptySubtotal
  | l :: rest =>
    if isInfixOfB hotelEndLabel l then
      if findIdxOfLine lines l + 1 < lines.length then
        parse_subtotal_line (lines.getD (findIdxOfLine lines l + 1) [])
      else subtotalHoteleriaGo lines rest
    else subtotalHoteleriaGo lines rest

def extract_subtotal_hoteleria (lines : List (List Char)) : Subtotal :=
  subtotalHoteleriaGo lines lines

/-- `PDFParser._extract_hoteleria`: the scan's final start index is tested
by *truthiness* (`if not start_idx`), so both "label absent" and "label at
line index 0" yield `None`; likewise the end bound uses
`end_idx if end_idx else len(self.lines)`. -/
def extract_hoteleria (itemOf : List Char → Option DetalleItem)
    (lines : List (List Char)) : Option DetalleSeccion :=
  if optTruthyNat (hotelScan lines).1 = false then none
  else
    some
      { seccion := "Hoteleria"
        items :=
          collectItems itemOf lines ((hotelScan lines).1.getD 0 + 2)
            (if optTruthyNat (hotelScan lines).2 = true then (hotelScan lines).2.getD 0
             else lines.length)
        subtotal := extract_subtotal_hoteleria lines }

/-- `PDFParser._empty_resumen_row`. -/
def emptyResumenRow : ResumenFila :=
  { prestacion := 0, bonificado := 0, caec := 0, seguro := 0,
    copago_afiliado := 0, cheque := none }

/-- `PDFParser._parse_resumen_row`: the sixth amount is the `cheque` unless
the `-------` placeholder occurs in the line. -/
def parse_resumen_row (l : List Char) : ResumenFila :=
  let amounts := findAmounts l
  let cheque : Option Int :=
    if isInfixOfB "-------".toList l = false ∧ 6 ≤ amounts.length then
      some (parseAmountL (amounts.getD 5 []))
    else none
  if 5 ≤ amounts.length then
    { prestacion := parseAmountL (amounts.getD 0 [])
      bonificado := parseAmountL (amounts.getD 1 [])
      caec := parseAmountL (amounts.getD 2 [])
      seguro := parseAmountL (amounts.getD 3 [])
      copago_afiliado := parseAmountL (amounts.getD 4 [])
      cheque := cheque }
  else emptyResumenRow

/-- All-default summary rows. -/
def emptyFilas : ResumenFilas :=
  ⟨emptyResumenRow, emptyResumenRow, emptyResumenRow⟩

/-- The row loop of `_extract_resumen_filas`: over the scanned range, a
`startswith` dispatch assigns (and overwrites) the three rows. -/
def filasLoop (lines : List (List Char)) (i stop : Nat)
    (b r t : Option ResumenFila) : ResumenFilas :=
  if h : i < stop then
    if "Bono".toList.isPrefixOf (lines.getD i []) then
      filasLoop lines (i + 1) stop (some (parse_resumen_row (lines.getD i []))) r t
    else if "Reembolso".toList.isPrefixOf (lines.getD i []) then
      filasLoop lines (i + 1) stop b (some (parse_resumen_row (lines.getD i []))) t
    else if "Totales".toList.isPrefixOf (lines.getD i []) then
      filasLoop lines (i + 1) stop b r (some (parse_resumen_row (lines.getD i [])))
    else filasLoop lines (i + 1) stop b r t
  else
    { bono := b.getD emptyResumenRow
      reembolso := r.getD emptyResumenRow
      totales := t.getD emptyResumenRow }
termination_by stop - i

/-- `PDFParser._extract_resumen_filas`: the scan's final start index is
tested by truthiness (`if not resumen_start`), so both "label absent" and
"label at line index 0" yield the all-default rows. -/
def extract_resumen_filas (lines : List (List Char)) : ResumenFilas :=
  if optTruthyNat (resumenScan lines).1 = false then emptyFilas
  else
    filasLoop lines ((resumenScan lines).1.getD 0)
      (if optTruthyNat (resumenScan lines).2 = true then (resumenScan lines).2.getD 0
       else lines.length)
      none none none

theorem optTruthyNat_some_pos (i : Nat) (h : 1 ≤ i) :
    optTruthyNat (some i) = true := by
  cases i with
  | zero => omega
  | succ k => rfl

theorem lineScan_stuck_zero (pS pB : List Char → Bool) :
    ∀ (rest : List (List Char)) (i : Nat), (∀ l ∈ rest, pS l = false) →
      lineScan pS pB (some 0) i rest = (some 0, none) := by
  intro rest
  induction rest with
  | nil => intro i _; rfl
  | cons l r ih =>
    intro i h
    have hl : pS l = false := h l (by simp)
    simp only [lineScan, hl, if_false]
    show (if optTruthyNat (some 0) && pB l then ((some 0 : Option Nat), some i)
      else lineScan pS pB (some 0) (i + 1) r) = (some 0, none)
    rw [if_neg (by simp [optTruthyNat])]
    exact ih (i + 1) (fun x hx => h x (by simp [hx]))

theorem lineScan_truthy (pS pB : List Char → Bool) :
    ∀ (rest : List (List Char)) (s : Option Nat) (i : Nat),
      (optTruthyNat s = true → 1 ≤ i) →
      (optTruthyNat s = true ∨
        ∃ j l, rest.get? j = some l ∧ pS l = true ∧ 1 ≤ i + j) →
      optTruthyNat (lineScan pS pB s i rest).1 = true := by
  intro rest
  induction rest with
  | nil =>
    intro s i _ h
    rcases h with h | ⟨j, l, hj, _⟩
    · exact h
    · simp at hj
  | cons l r ih =>
    intro s i hsi h
    simp only [lineScan]
    by_cases hguard : (optTruthyNat (if pS l then some i else s) && pB l) = true
    · rw [if_pos hguard]
      simp only [Bool.and_eq_true] at hguard
      exact hguard.1
    · rw [if_neg hguard]
      apply ih _ (i + 1) (fun _ => by omega)
      by_cases hps : pS l = true
      · by_cases hi : 1 ≤ i
        · left
          rw [if_pos hps]
          exact optTruthyNat_some_pos i hi
        · rcases h with h | ⟨j, l2, hj, hl2, hij⟩
          · exact absurd (hsi h) hi
          · cases j with
            | zero => omega
            | succ j2 =>
              right
              exact ⟨j2, l2, hj, hl2, by omega⟩
      · rcases h with h | ⟨j, l2, hj, hl2, hij⟩
        · left
          rw [if_neg hps]
          exact h
        · cases j with
          | zero =>
            exfalso
            simp only [List.get?] at hj
            have heq : l = l2 := by injection hj
            subst heq
            exact hps hl2
          | succ j2 =>
            right
            exact ⟨j2, l2, hj, hl2, by omega⟩

/-- C10: if a section's start label occurs on the very first line (index 0)
of the document text and nowhere later, the parser treats the section as
absent — `_extract_hoteleria` returns `None` and `_extract_resumen_filas`
returns the all-default rows — because the found index is tested by
truthiness rather than compared to `None`; an occurrence at any line index
≥ 1 makes the scan result truthy, and the section is parsed normally
(`_extract_hoteleria` produces a section, `_extract_resumen_filas` runs its
row loop over the scanned range). -/
theorem section_label_on_first_line_truthiness
    (itemOf : List Char → Option DetalleItem) (l0 : List Char)
    (rest lines : List (List Char)) :
    (isInfixOfB hotelLabel l0 = true →
      (∀ l ∈ rest, isInfixOfB hotelLabel l = false) →
      extract_hoteleria itemOf (l0 :: rest) = none) ∧
      ((∃ j l, 1 ≤ j ∧ lines.get? j = some l ∧ isInfixOfB hotelLabel l = true) →
        (extract_hoteleria itemOf lines).isSome = true) ∧
      (isInfixOfB resumenLabel l0 = true →
        (∀ l ∈ rest, isInfixOfB resumenLabel l = false) →
        extract_resumen_filas (l0 :: rest) = emptyFilas) ∧
      ((∃ j l, 1 ≤ j ∧ lines.get? j = some l ∧ isInfixOfB resumenLabel l = true) →
        extract_resumen_filas lines =
          filasLoop lines ((resumenScan lines).1.getD 0)
            (if optTruthyNat (resumenScan lines).2 = true then
              (resumenScan lines).2.getD 0
             else lines.length) none none none) := by
  refine ⟨?_, ?_, ?_, ?_⟩
  · intro h0 hrest
    have hscan : hotelScan (l0 :: rest) = (some 0, none) := by
      unfold hotelScan
      simp only [lineScan, h0, if_true]
      rw [if_neg (by simp [optTruthyNat])]
      exact lineScan_stuck_zero _ _ rest 1 hrest
    unfold extract_hoteleria
    rw [hscan]
    rfl
  · intro ⟨j, l, hj, hjl, hl⟩
    have htr : optTruthyNat (hotelScan lines).1 = true := by
      unfold hotelScan
      exact lineScan_truthy _ _ lines none 0 (fun htr => by simp [optTruthyNat] at htr)
        (Or.inr ⟨j, l, hjl, hl, by omega⟩)
    unfold extract_hoteleria
    rw [if_neg (by simp [htr])]
    rfl
  · intro h0 hrest
    have hscan : resumenScan (l0 :: rest) = (some 0, none) := by
      unfold resumenScan
      simp only [lineScan, h0, if_true]
      rw [if_neg (by simp [optTruthyNat])]
      exact lineScan_stuck_zero _ _ rest 1 hrest
    unfold extract_resumen_filas
    rw [hscan]
    rfl
  · intro ⟨j, l, hj, hjl, hl⟩
    have htr : optTruthyNat (resumenScan lines).1 = true := by
      unfold resumenScan
      exact lineScan_truthy _ _ lines none 0 (fun htr => by simp [optTruthyNat] at htr)
        (Or.inr ⟨j, l, hjl, hl, by omega⟩)
    unfold extract_resumen_filas
    rw [if_neg (by simp [htr])]

/-- Witness inputs for C10. -/
def c10HotelLine : List Char := "Detalle Hoteleria x".toList

def c10ResumenLine : List Char := "Resumen: x".toList

/-- Witness for C10: with the labels alone on line 0 both sections are
treated as absent, and with a blank first line and the labels on line 1
both scans are truthy. -/
theorem section_label_on_first_line_truthiness_witness :
    extract_hoteleria (fun _ => none) [c10HotelLine] = none ∧
      extract_resumen_filas [c10ResumenLine] = emptyFilas ∧
      (extract_hoteleria (fun _ => none) [[], c10HotelLine]).isSome = true ∧
      extract_resumen_filas [[], c10ResumenLine] =
        filasLoop [[], c10ResumenLine]
          ((resumenScan [[], c10ResumenLine]).1.getD 0)
          (if optTruthyNat (resumenScan [[], c10ResumenLine]).2 = true then
            (resumenScan [[], c10ResumenLine]).2.getD 0
           else ([[], c10ResumenLine] : List (List Char)).length) none none none :=
  ⟨(section_label_on_first_line_truthiness (fun _ => none) c10HotelLine [] []).1
      (by decide) (by intro l hl; simp at hl),
    (section_label_on_first_line_truthiness (fun _ => none) c10ResumenLine [] []).2.2.1
      (by decide) (by intro l hl; simp at hl),
    (section_label_on_first_line_truthiness (fun _ => none) [] [] [[], c10HotelLine]).2.1
      ⟨1, c10HotelLine, by omega, rfl, by decide⟩,
    (section_label_on_first_line_truthiness (fun _ => none) [] [] [[], c10ResumenLine]).2.2.2
      ⟨1, c10ResumenLine, by omega, rfl, by decide⟩⟩

end PdfParser

namespace CruzBlanca

open PyStr

/-- One link cell of the summary grid's `Cuentas A Pago` column: `fecha` is
the date extracted from its `onclick` by `re.search` (the oracle resolves
the match), `text` is `text_content()` (`None`-able). -/
structure SummaryLink where
  fecha : Option String
  text : Option String
deriving DecidableEq

/-- One collected identity: date key, positive count, stripped text. -/
structure LinkData where
  fecha : String
  count : Nat
  text : String
deriving DecidableEq

/-- One rendering of the summary grid plus whether a "next" pager control
exists (`next_btn.count() > 0`). -/
structure SummaryPage where
  links : List SummaryLink
  hasNext : Bool
deriving DecidableEq

/-- Python `str.isdigit()` restricted to ASCII digits (the data here is
numeric grid text). -/
def pyIsdigit (s : String) : Bool := !s.isEmpty && s.toList.all Char.isDigit

/-- `int` on digit-only text. -/
def pyIntOfDigitText (s : String) : Nat := digitsVal s.toList

/-- The `count` guard of the link loop: `link_text and
link_text.strip().isdigit()`, then `int(link_text.strip())`. -/
def linkCount (l : SummaryLink) : Option Nat :=
  match l.text with
  | none => none
  | some t => if pyIsdigit (pyStripS t) then some (pyIntOfDigitText (pyStripS t)) else none

/-- The per-page link loop of `get_summary_table_data_and_process`: skip
links with no extractable date; on digit text, `count == 0` sets
`found_zero` and breaks (discarding nothing already collected); positive
counts are appended keyed by their date. -/
def scanLinks : List SummaryLink → List LinkData × Bool
  | [] => ([], false)
  | l :: rest =>
    match l.fecha with
    | none => scanLinks rest
    | some f =>
      match linkCount l with
      | none => scanLinks rest
      | some count =>
        if count = 0 then ([], true)
        else
          ((⟨f, count, pyStripS (l.text.getD "")⟩ : LinkData) :: (scanLinks rest).1,
            (scanLinks rest).2)

/-- The summary-page loop: each page is scanned; `found_zero` breaks the
whole loop, an empty collection breaks, otherwise the identities are
processed and the loop continues onto the next page only if a "next"
control exists. -/
def collectIdentities : List SummaryPage → List LinkData
  | [] => []
  | p :: rest =>
    if (scanLinks p.links).2 then (scanLinks p.links).1
    else if (scanLinks p.links).1.isEmpty then []
    else (scanLinks p.links).1 ++ (if p.hasNext then collectIdentities rest else [])

/-- The entry `scanLinks` builds for a kept link. -/
def linkEntryOf (l : SummaryLink) : LinkData :=
  { fecha := l.fecha.getD "", count := (linkCount l).getD 0,
    text := pyStripS (l.text.getD "") }

/-- A link with a date and a positive digit count. -/
def positiveLink (l : SummaryLink) : Bool :=
  l.fecha.isSome &&
    (match linkCount l with
     | some c => decide (0 < c)
     | none => false)

/-- A link with a date and digit count zero: the sentinel. -/
def zeroLink (l : SummaryLink) : Bool :=
  l.fecha.isSome && (linkCount l == some 0)

theorem scanLinks_sentinel (z : SummaryLink) (suf : List SummaryLink)
    (hz : zeroLink z = true) :
    ∀ (pre : List SummaryLink), (∀ l ∈ pre, positiveLink l = true) →
      scanLinks (pre ++ z :: suf) = (pre.map linkEntryOf, true) := by
  have hzf : ∃ f, z.fecha = some f := by
    simp only [zeroLink, Bool.and_eq_true, Option.isSome_iff_exists] at hz
    exact hz.1
  have hzc : linkCount z = some 0 := by
    simp only [zeroLink, Bool.and_eq_true, beq_iff_eq] at hz
    exact hz.2
  intro pre
  induction pre with
  | nil =>
    intro _
    obtain ⟨f, hf⟩ := hzf
    simp only [List.nil_append, scanLinks, hf, hzc]
    rfl
  | cons l pre ih =>
    intro h
    have hl := h l (by simp)
    simp only [positiveLink, Bool.and_eq_true, Option.isSome_iff_exists] at hl
    obtain ⟨⟨f, hf⟩, hcnt⟩ := hl
    cases hc : linkCount l with
    | none => rw [hc] at hcnt; simp at hcnt
    | some c =>
      rw [hc] at hcnt
      simp only [decide_eq_true_eq] at hcnt
      have hcne : ¬(c = 0) := by omega
      simp only [List.cons_append, scanLinks, hf, hc, if_neg hcne, List.append_eq,
        ih (fun x hx => h x (by simp [hx]))]
      simp [linkEntryOf, hf, hc]

/-- C5: for a summary page whose first `N` links carry positive counts and
whose next link carries count 0, the enumeration collects exactly the `N`
positive-count identities keyed by their date value — never the sentinel,
anything after it on the page, or anything from a later summary page. -/
theorem enumerate_stops_at_zero (pre : List SummaryLink) (z : SummaryLink)
    (suf : List SummaryLink) (hasNext : Bool) (rest : List SummaryPage)
    (hpre : ∀ l ∈ pre, positiveLink l = true) (hz : zeroLink z = true) :
    collectIdentities ({ links := pre ++ z :: suf, hasNext := hasNext } :: rest) =
      pre.map linkEntryOf := by
  have hs := scanLinks_sentinel z suf hz pre hpre
  simp [collectIdentities, hs]

def w5a : SummaryLink := ⟨some "10/09/2025", some " 12 "⟩

def w5b : SummaryLink := ⟨some "11/09/2025", some "3"⟩

def w5z : SummaryLink := ⟨some "12/09/2025", some "0"⟩

def w5junk : SummaryLink := ⟨some "13/09/2025", some "7"⟩

/-- Witness for C5 at a concrete two-entry page with a sentinel, trailing
entries and a further page. -/
theorem enumerate_stops_at_zero_witness :
    collectIdentities
        ({ links := [w5a, w5b] ++ w5z :: [w5junk], hasNext := true } ::
          [{ links := [w5junk], hasNext := false }]) =
      [w5a, w5b].map linkEntryOf :=
  enumerate_stops_at_zero [w5a, w5b] w5z [w5junk] true
    [{ links := [w5junk], hasNext := false }] (by decide) (by decide)

/-- Outcome of the per-row download loop in `process_detail_table`. -/
inductive RowDownload where
  | success (size : Nat) (fromSkip : Bool)
  | failed
deriving DecidableEq

/-- The 3-attempt per-row download loop (`for retry in range(3)`).  `disk`
is the file currently at the deterministic path (`None` = absent); the
oracle `dl k` is the result of the `k`-th fresh download trigger (`none` =
exception — no file persisted; `some s` = file saved with `s` bytes).
Each iteration: if a file exists it is accepted whenever its size is `> 0`
(the skip path) or deleted when zero-sized; then a fresh download is
triggered and kept only when its size is strictly `> 1000`, else the file
is deleted before the next attempt. -/
def downloadAttempts (dl : Nat → Option Nat) : Nat → Nat → Option Nat → RowDownload
  | _, 0, _ => .failed
  | k, fuel + 1, disk =>
    match disk with
    | some sz =>
      if 0 < sz then .success sz true
      else
        match dl k with
        | none => downloadAttempts dl (k + 1) fuel none
        | some s =>
          if 1000 < s then .success s false else downloadAttempts dl (k + 1) fuel none
    | none =>
      match dl k with
      | none => downloadAttempts dl (k + 1) fuel none
      | some s =>
        if 1000 < s then .success s false else downloadAttempts dl (k + 1) fuel none

/-- The download of one row: three attempts against the pre-existing file
state; exhaustion marks the row `FAILED`. -/
def process_row_download (existing : Option Nat) (dl : Nat → Option Nat) : RowDownload :=
  downloadAttempts dl 0 3 existing

/-- C3 counterexample: a previously-saved 500-byte file for the same
`(identity, token)` is accepted by the skip path (`st_size > 0`), so the
row is recorded successful with an on-disk size below the 1000-byte
threshold — the file is kept, not deleted and re-attempted. -/
theorem download_skip_path_counterexample :
    process_row_download (some 500) (fun _ => none) = .success 500 true ∧
      500 < 1000 :=
  ⟨rfl, by decide⟩

theorem downloadAttempts_success (dl : Nat → Option Nat) :
    ∀ fuel k disk s skip, downloadAttempts dl k fuel disk = .success s skip →
      1000 < s ∨ (skip = true ∧ disk = some s ∧ 0 < s) := by
  intro fuel
  induction fuel with
  | zero => intro k disk s skip h; exact absurd h (by simp [downloadAttempts])
  | succ fuel ih =>
    intro k disk s skip h
    cases disk with
    | some sz =>
      simp only [downloadAttempts] at h
      by_cases hsz : 0 < sz
      · rw [if_pos hsz] at h
        injection h with h1 h2
        subst h1; subst h2
        exact Or.inr ⟨rfl, rfl, hsz⟩
      · rw [if_neg hsz] at h
        split at h
        · rcases ih (k + 1) none s skip h with h1 | ⟨_, h2, _⟩
          · exact Or.inl h1
          · exact absurd h2 (by simp)
        · split at h
          · rename_i hs0
            injection h with h1 h2
            subst h1
            exact Or.inl hs0
          · rcases ih (k + 1) none s skip h with h1 | ⟨_, h2, _⟩
            · exact Or.inl h1
            · exact absurd h2 (by simp)
    | none =>
      simp only [downloadAttempts] at h
      split at h
      · rcases ih (k + 1) none s skip h with h1 | ⟨_, h2, _⟩
        · exact Or.inl h1
        · exact absurd h2 (by simp)
      · split at h
        · rename_i hs0
          injection h with h1 h2
          subst h1
          exact Or.inl hs0
        · rcases ih (k + 1) none s skip h with h1 | ⟨_, h2, _⟩
          · exact Or.inl h1
          · exact absurd h2 (by simp)

theorem downloadAttempts_failed (dl : Nat → Option Nat) :
    ∀ fuel k disk, downloadAttempts dl k fuel disk = .failed →
      ∀ j, j < fuel → ∀ s, dl (k + j) = some s → s ≤ 1000 := by
  intro fuel
  induction fuel with
  | zero => intro k disk _ j hj; omega
  | succ fuel ih =>
    intro k disk h j hj s hds
    cases disk with
    | some sz =>
      simp only [downloadAttempts] at h
      by_cases hsz : 0 < sz
      · rw [if_pos hsz] at h; exact absurd h (by simp)
      · rw [if_neg hsz] at h
        split at h
        · rename_i heq
          cases j with
          | zero =>
            simp only [Nat.add_zero] at hds
            rw [heq] at hds
            exact absurd hds (by simp)
          | succ j2 =>
            exact ih (k + 1) none h j2 (by omega) s
              (by rw [show k + 1 + j2 = k + (j2 + 1) by omega]; exact hds)
        · split at h
          · exact absurd h (by simp)
          · rename_i s0 heq hs0
            cases j with
            | zero =>
              simp only [Nat.add_zero] at hds
              rw [heq] at hds
              injection hds with he
              omega
            | succ j2 =>
              exact ih (k + 1) none h j2 (by omega) s
                (by rw [show k + 1 + j2 = k + (j2 + 1) by omega]; exact hds)
    | none =>
      simp only [downloadAttempts] at h
      split at h
      · rename_i heq
        cases j with
        | zero =>
          simp only [Nat.add_zero] at hds
          rw [heq] at hds
          exact absurd hds (by simp)
        | succ j2 =>
          exact ih (k + 1) none h j2 (by omega) s
            (by rw [show k + 1 + j2 = k + (j2 + 1) by omega]; exact hds)
      · split at h
        · exact absurd h (by simp)
        · rename_i s0 heq hs0
          cases j with
          | zero =>
            simp only [Nat.add_zero] at hds
            rw [heq] at hds
            injection hds with he
            omega
          | succ j2 =>
            exact ih (k + 1) none h j2 (by omega) s
              (by rw [show k + 1 + j2 = k + (j2 + 1) by omega]; exact hds)

/-- C3 (amended): a row recorded successful got its file either from a
fresh download of size strictly greater than 1000 bytes, or from the skip
path, which accepts the pre-existing file for the same `(identity, token)`
whenever its size is merely positive (so a sub-1000-byte outcome *is*
possible via the skip path); a fresh download of size ≤ 1000 is never kept
— it is deleted and re-attempted, and the row is marked `FAILED` only after
the 3 attempts all fail the `> 1000` check (or raise). -/
theorem download_invariant_amended (existing : Option Nat) (dl : Nat → Option Nat) :
    (∀ s skip, process_row_download existing dl = .success s skip →
      1000 < s ∨ (skip = true ∧ existing = some s ∧ 0 < s)) ∧
      (process_row_download existing dl = .failed →
        ∀ k, k < 3 → ∀ s, dl k = some s → s ≤ 1000) :=
  ⟨fun s skip h => downloadAttempts_success dl 3 0 existing s skip h,
    fun h k hk s hd =>
      downloadAttempts_failed dl 3 0 existing h k hk s (by simpa using hd)⟩

/-- Witness for the amended C3 at the concrete skip-path outcome. -/
theorem download_invariant_amended_witness :
    1000 < 500 ∨ (true = true ∧ (some 500 : Option Nat) = some 500 ∧ 0 < 500) :=
  (download_invariant_amended (some 500) (fun _ => none)).1 500 true rfl

end CruzBlanca

namespace CruzBlanca

open PyStr

/-- One row's accumulated download metadata (the `row_data` dict of
`process_detail_table`; absent keys are `none`/`false`). -/
structure PdfRecord where
  nroCuenta : String
  pdf_token : Option String := none
  pdf_filename : Option String := none
  pdf_size : Option Nat := none
  download_status : Option String := none
  retry_success : Bool := false
  retry_count : Option Nat := none
  final_error : Option String := none
deriving DecidableEq

/-- Result of re-locating a failed row in the *current* rendering by its
`Nro. Cuenta` business key: no row with that key, a row without a PDF link,
a row with a link, or a raised locator exception. -/
inductive LocateOutcome where
  | notFound
  | noLink
  | found
  | raised (msg : String)
deriving DecidableEq

/-- Oracles for the reconciliation pass: `locate` resolves the current
table search for a business key; `dl i retry` is the saved size of the
`retry`-th re-download of the `i`-th failed record (`none` = exception or
unsaved file). -/
structure RetryEnv where
  locate : String → LocateOutcome
  dl : Nat → Nat → Option Nat

/-- `not r.get("pdf_filename") and r.get("pdf_token")` (Python truthiness:
`None` and `""` are falsy). -/
def isFailedRow (r : PdfRecord) : Bool :=
  !optStrTruthy r.pdf_filename && optStrTruthy r.pdf_token

/-- The retry file name `{nro}_{link_text}_{token[:8]}_retry{n}.pdf`. -/
def retryName (linkText : String) (r : PdfRecord) (retry : Nat) : String :=
  r.nroCuenta ++ "_" ++ linkText ++ "_" ++ (r.pdf_token.getD "").take 8 ++
    "_retry" ++ (⟨natDigits (retry + 1)⟩ : String) ++ ".pdf"

/-- The inner `for retry in range(2)` loop of
`validate_and_retry_downloads`: a saved file of size strictly `> 1000`
records the retry success (filename, size, `retry_success`, `retry_count`);
anything else deletes the file and continues; exhaustion marks
`FAILED_FINAL`. -/
def retryGo (env : RetryEnv) (linkText : String) (i : Nat) (r : PdfRecord) :
    Nat → Nat → PdfRecord
  | _, 0 =>
    { r with download_status := some "FAILED_FINAL",
             final_error := some "All retries failed" }
  | retry, fuel + 1 =>
    match env.dl i retry with
    | none => retryGo env linkText i r (retry + 1) fuel
    | some sz =>
      if 1000 < sz then
        { r with pdf_filename := some (retryName linkText r retry),
                 pdf_size := some sz, retry_success := true,
                 retry_count := some (retry + 1) }
      else retryGo env linkText i r (retry + 1) fuel

/-- The per-failed-row body: rows that cannot be re-located, or whose row
has no PDF link, are skipped (`continue`) — left unchanged, with neither a
retry success nor a `FAILED_FINAL` mark; a located row gets up to 2
attempts; a raised locator exception marks `FAILED_FINAL` with the
stringified error. -/
def processFailed (env : RetryEnv) (linkText : String) (i : Nat) (r : PdfRecord) :
    PdfRecord :=
  match env.locate r.nroCuenta with
  | .notFound => r
  | .noLink => r
  | .raised msg =>
    { r with download_status := some "FAILED_FINAL", final_error := some msg }
  | .found => retryGo env linkText i r 0 2

/-- Iterate `processFailed` over the failed rows in order (the
`for i, record in enumerate(failed_records, 1)` loop, mutating the shared
dicts in place — modelled as an index-threaded map). -/
def retryPass (env : RetryEnv) (linkText : String) : Nat → List PdfRecord → List PdfRecord
  | _, [] => []
  | i, r :: rest =>
    if isFailedRow r then processFailed env linkText i r :: retryPass env linkText (i + 1) rest
    else r :: retryPass env linkText i rest

/-- `CruzBlancaScraper.validate_and_retry_downloads`: if the count of rows
carrying a token equals the count of rows with a filename, return with the
list unchanged; otherwise run the reconciliation pass over the failed rows. -/
def validate_and_retry_downloads (env : RetryEnv) (pdfs : List PdfRecord)
    (linkText : String) : List PdfRecord :=
  if pdfs.countP (fun r => optStrTruthy r.pdf_token) =
      pdfs.countP (fun r => optStrTruthy r.pdf_filename) then pdfs
  else retryPass env linkText 0 pdfs

/-- Default record for positional lookups. -/
def dfltRec : PdfRecord := { nroCuenta := "" }

theorem retryPass_length (env : RetryEnv) (lt : String) :
    ∀ (pdfs : List PdfRecord) (i : Nat), (retryPass env lt i pdfs).length = pdfs.length := by
  intro pdfs
  induction pdfs with
  | nil => intro i; rfl
  | cons r rest ih =>
    intro i
    simp only [retryPass]
    split <;> simp [ih]

theorem retryPass_getD (env : RetryEnv) (lt : String) :
    ∀ (pdfs : List PdfRecord) (i j : Nat), j < pdfs.length →
      (retryPass env lt i pdfs).getD j dfltRec =
        (if isFailedRow (pdfs.getD j dfltRec) then
          processFailed env lt (i + (pdfs.take j).countP isFailedRow)
            (pdfs.getD j dfltRec)
         else pdfs.getD j dfltRec) := by
  intro pdfs
  induction pdfs with
  | nil => intro i j hj; simp at hj
  | cons r rest ih =>
    intro i j hj
    simp only [retryPass]
    by_cases hr : isFailedRow r = true
    · rw [if_pos hr]
      cases j with
      | zero =>
        simp [hr]
      | succ j2 =>
        rw [List.getD_cons_succ, List.getD_cons_succ,
          ih (i + 1) j2 (by simp at hj; omega)]
        have hcnt : ((r :: rest).take (j2 + 1)).countP isFailedRow =
            (rest.take j2).countP isFailedRow + 1 := by
          simp [List.take_succ_cons, List.countP_cons, hr]
        rw [hcnt]
        have harith : i + 1 + (rest.take j2).countP isFailedRow =
            i + ((rest.take j2).countP isFailedRow + 1) := by omega
        rw [harith]
    · rw [if_neg hr]
      cases j with
      | zero =>
        simp [hr]
      | succ j2 =>
        rw [List.getD_cons_succ, List.getD_cons_succ,
          ih i j2 (by simp at hj; omega)]
        have hcnt : ((r :: rest).take (j2 + 1)).countP isFailedRow =
            (rest.take j2).countP isFailedRow := by
          simp [List.take_succ_cons, List.countP_cons, hr]
        rw [hcnt]

theorem retryGo_marks (env : RetryEnv) (lt : String) (i : Nat) (r : PdfRecord) :
    ∀ fuel retry, (retryGo env lt i r retry fuel).retry_success = true ∨
      (retryGo env lt i r retry fuel).download_status = some "FAILED_FINAL" := by
  intro fuel
  induction fuel with
  | zero => intro retry; exact Or.inr rfl
  | succ fuel ih =>
    intro retry
    simp only [retryGo]
    split
    · exact ih (retry + 1)
    · split
      · exact Or.inl rfl
      · exact ih (retry + 1)

/-- C6 (amended): if the token count equals the filename count the function
returns with every row unchanged; otherwise each failed row (token present,
no filename) is searched in the current table by its `Nro. Cuenta` business
key — when found with a PDF link it receives up to 2 additional attempts
and ends marked either as a retry success or `FAILED_FINAL` (a raised
locator error also marks `FAILED_FINAL`), but a failed row that cannot be
re-located (or whose row has no PDF link) is skipped and left unchanged,
with neither mark; non-failed rows are never touched. -/
theorem validate_and_retry_spec (env : RetryEnv) (pdfs : List PdfRecord) (lt : String) :
    (pdfs.countP (fun r => optStrTruthy r.pdf_token) =
        pdfs.countP (fun r => optStrTruthy r.pdf_filename) →
      validate_and_retry_downloads env pdfs lt = pdfs) ∧
      (pdfs.countP (fun r => optStrTruthy r.pdf_token) ≠
          pdfs.countP (fun r => optStrTruthy r.pdf_filename) →
        (validate_and_retry_downloads env pdfs lt).length = pdfs.length ∧
          ∀ j, j < pdfs.length →
            (validate_and_retry_downloads env pdfs lt).getD j dfltRec =
              (if isFailedRow (pdfs.getD j dfltRec) then
                processFailed env lt ((pdfs.take j).countP isFailedRow)
                  (pdfs.getD j dfltRec)
               else pdfs.getD j dfltRec)) ∧
      (∀ i r, isFailedRow r = true →
        (env.locate r.nroCuenta = .notFound → processFailed env lt i r = r) ∧
          (env.locate r.nroCuenta = .noLink → processFailed env lt i r = r) ∧
          (env.locate r.nroCuenta = .found →
            (processFailed env lt i r).retry_success = true ∨
              (processFailed env lt i r).download_status = some "FAILED_FINAL") ∧
          (∀ m, env.locate r.nroCuenta = .raised m →
            (processFailed env lt i r).download_status = some "FAILED_FINAL")) := by
  refine ⟨?_, ?_, ?_⟩
  · intro h
    unfold validate_and_retry_downloads
    rw [if_pos h]
  · intro h
    unfold validate_and_retry_downloads
    rw [if_neg h]
    refine ⟨retryPass_length env lt pdfs 0, ?_⟩
    intro j hj
    have := retryPass_getD env lt pdfs 0 j hj
    simpa using this
  · intro i r _
    refine ⟨?_, ?_, ?_, ?_⟩
    · intro h
      unfold processFailed
      rw [h]
    · intro h
      unfold processFailed
      rw [h]
    · intro h
      unfold processFailed
      rw [h]
      exact retryGo_marks env lt i r 2 0
    · intro m h
      unfold processFailed
      rw [h]

/-- A failed row whose business key is absent from the current table. -/
def c6Rec : PdfRecord := { nroCuenta := "12345", pdf_token := some "tok123" }

/-- Environment in which no row can be re-located (the table re-rendered
without that `Nro. Cuenta`), while downloads would succeed if tried. -/
def c6Env : RetryEnv := { locate := fun _ => .notFound, dl := fun _ _ => some 999999 }

/-- C6 counterexample: the counts differ (1 token vs 0 filenames), the row
is a failed row, yet after `validate_and_retry_downloads` it is unchanged —
neither marked as a retry success nor as `FAILED_FINAL`, contradicting the
claim that every failed row ends with one of the two marks. -/
theorem validate_and_retry_unlocatable_counterexample :
    [c6Rec].countP (fun r => optStrTruthy r.pdf_token) ≠
        [c6Rec].countP (fun r => optStrTruthy r.pdf_filename) ∧
      isFailedRow c6Rec = true ∧
      validate_and_retry_downloads c6Env [c6Rec] "5" = [c6Rec] ∧
      c6Rec.retry_success = false ∧ c6Rec.download_status = none ∧
      c6Rec.pdf_filename = none := by
  decide

/-- Witness for the amended C6: matching counts return the list unchanged. -/
theorem validate_and_retry_spec_witness :
    validate_and_retry_downloads c6Env [dfltRec] "5" = [dfltRec] :=
  (validate_and_retry_spec c6Env [dfltRec] "5").1 (by decide)

end CruzBlanca

namespace CruzBlanca

open PyStr

/-- One entry of the report's `failed_records`. -/
structure FailedInfo where
  nro_cuenta : String
  error : String
deriving DecidableEq

/-- The structured report `final_validation` returns. -/
structure HarvestReport where
  passed : Bool
  total_expected : Nat
  total_downloaded : Nat
  success_rate : ℚ
  failed_records : List FailedInfo
  corrupted_files : List String
  retry_successes : Nat
  total_size_bytes : Nat
deriving DecidableEq

/-- Python `round(x, 2)`.  Python rounds half to even on the underlying
float; Mathlib `round` rounds half up — the two agree away from exact
`.005` ties, and every value this report meets below is tie-free. -/
def round2 (q : ℚ) : ℚ := ((round (q * 100) : ℤ) : ℚ) / 100

/-- The on-disk scan of the job's pdf directory: `none` models a missing
directory (no corruption scan, zero total size); files below 1000 bytes are
the corrupted list, in directory order. -/
def corruptedOf (disk : Option (List (String × Nat))) : List String :=
  match disk with
  | none => []
  | some files => files.filterMap (fun f => if f.2 < 1000 then some f.1 else none)

/-- Total on-disk size of the scanned files. -/
def totalSizeOf (disk : Option (List (String × Nat))) : Nat :=
  match disk with
  | none => 0
  | some files => files.foldl (fun acc f => acc + f.2) 0

/-- `success_rate = successful / total * 100` (0 when the list is empty);
Python float arithmetic modelled exactly over ℚ. -/
def rawSuccessRate (all_pdfs : List PdfRecord) : ℚ :=
  if 0 < all_pdfs.length then
    ((all_pdfs.countP (fun r => optStrTruthy r.pdf_filename) : ℚ) /
      (all_pdfs.length : ℚ)) * 100
  else 0

/-- `CruzBlancaScraper.final_validation`: counts over the recorded
outcomes, an independent on-disk corruption scan, `passed` computed from
the *unrounded* rate and the corrupted list, and the reported
`success_rate` rounded to two decimals. -/
def final_validation (all_pdfs : List PdfRecord)
    (disk : Option (List (String × Nat))) : HarvestReport :=
  { passed := decide (95 ≤ rawSuccessRate all_pdfs) && (corruptedOf disk).isEmpty
    total_expected := all_pdfs.length
    total_downloaded := all_pdfs.countP (fun r => optStrTruthy r.pdf_filename)
    success_rate := round2 (rawSuccessRate all_pdfs)
    failed_records :=
      if 0 < all_pdfs.countP (fun r => r.download_status == some "FAILED") then
        all_pdfs.filterMap (fun r =>
          if r.download_status == some "FAILED" then
            some ⟨r.nroCuenta, r.final_error.getD "Unknown error"⟩
          else none)
      else []
    corrupted_files := corruptedOf disk
    retry_successes := all_pdfs.countP (fun r => r.retry_success)
    total_size_bytes := totalSizeOf disk }

theorem countP_replicate {α : Type} (p : α → Bool) (n : Nat) (a : α) :
    (List.replicate n a).countP p = if p a then n else 0 := by
  induction n with
  | zero => simp
  | succ k ih =>
    rw [List.replicate_succ, List.countP_cons, ih]
    by_cases hp : p a = true <;> simp [hp]

/-- A recorded successful download. -/
def okRec : PdfRecord := { nroCuenta := "x", pdf_filename := some "f.pdf" }

/-- A recorded row with no download. -/
def badRec : PdfRecord := { nroCuenta := "y" }

/-- 968 successes out of 1019 outcomes: rate 94.9951…%, which *rounds* to
95.00 but is below 95. -/
def c4Pdfs : List PdfRecord := List.replicate 968 okRec ++ List.replicate 51 badRec

theorem c4_count : c4Pdfs.countP (fun r => optStrTruthy r.pdf_filename) = 968 := by
  unfold c4Pdfs
  rw [List.countP_append, countP_replicate, countP_replicate]
  rw [if_pos (show optStrTruthy okRec.pdf_filename = true from rfl),
    if_neg (show ¬optStrTruthy badRec.pdf_filename = true by decide)]

theorem c4_len : c4Pdfs.length = 1019 := by
  unfold c4Pdfs
  rw [List.length_append, List.length_replicate, List.length_replicate]

theorem c4_rate : rawSuccessRate c4Pdfs = 96800 / 1019 := by
  unfold rawSuccessRate
  rw [c4_count, c4_len]
  norm_num

/-- C4 counterexample: on `c4Pdfs` (no corrupted files on disk) the
report's `success_rate` field is ≥ 95 — the stored value is the *rounded*
rate 95.00 — and `corrupted_files` is empty, yet `passed` is `false`,
because `passed` is computed from the unrounded rate 96800/1019 < 95. -/
theorem final_validation_rounded_field_counterexample :
    95 ≤ (final_validation c4Pdfs (some [])).success_rate ∧
      (final_validation c4Pdfs (some [])).corrupted_files = [] ∧
      (final_validation c4Pdfs (some [])).passed = false := by
  have hlt : ¬(95 ≤ (96800 : ℚ) / 1019) := by norm_num
  have hround : round ((96800 : ℚ) / 1019 * 100) = 9500 := by
    have heq : (96800 : ℚ) / 1019 * 100 = 9680000 / 1019 := by norm_num
    rw [heq, round_eq]
    have hfloor : ⌊(9680000 : ℚ) / 1019 + 1 / 2⌋ = 9500 := by
      apply Int.floor_eq_iff.mpr
      constructor <;> norm_num
    exact hfloor
  refine ⟨?_, rfl, ?_⟩
  · have hfield : (final_validation c4Pdfs (some [])).success_rate =
        round2 (rawSuccessRate c4Pdfs) := by
      simp only [final_validation]
    rw [hfield, c4_rate]
    unfold round2
    rw [hround]
    norm_num
  · have hfield : (final_validation c4Pdfs (some [])).passed =
        (decide (95 ≤ rawSuccessRate c4Pdfs) && (corruptedOf (some [])).isEmpty) := by
      simp only [final_validation]
    rw [hfield, c4_rate, decide_eq_false hlt]
    rfl

/-- C4 (amended): `passed` is `true` iff the *unrounded* success rate is
≥ 95 and the corrupted-files scan is empty; the reported `success_rate`
field is that rate rounded to two decimals, and can be ≥ 95 while `passed`
is `false` (rates in [94.995, 95)); and re-finalizing the same outcome list
and file set yields the identical report — `final_validation` is a pure
function of the two. -/
theorem final_validation_passed_iff (pdfs : List PdfRecord)
    (disk : Option (List (String × Nat))) :
    ((final_validation pdfs disk).passed = true ↔
      (95 ≤ rawSuccessRate pdfs ∧ corruptedOf disk = [])) ∧
      final_validation pdfs disk = final_validation pdfs disk := by
  constructor
  · have hfield : (final_validation pdfs disk).passed =
        (decide (95 ≤ rawSuccessRate pdfs) && (corruptedOf disk).isEmpty) := by
      simp only [final_validation]
    rw [hfield, Bool.and_eq_true, decide_eq_true_iff, List.isEmpty_iff]
  · rfl

end CruzBlanca
